import Mathlib

/-!
# KFMon: readiness detection and launch coordination

A shallow embedding of `kfmon.c` (the Kobo inotify-based launcher) and the
properties of its content hash, readiness oracle, mount wait and event
handling.

Conventions of the embedding:
* C `unsigned int` values are naturals reduced modulo `2^32` where the C
  operation can wrap; C `int` / `pid_t` values are integers;
* C byte strings are lists of bytes (`unsigned char`), without the
  terminating NUL;
* everything the program obtains from its environment (results of
  `sqlite3_step`, of `access`, of `poll`, of `fork`, of `waitpid`, the
  decoded inotify events) is an explicit input;
* everything the program does to its environment is recorded, in order, in
  a list of `Effect`s.
-/

namespace KFMon

/-! ## Basic types -/

/-- One `unsigned char`. -/
abbrev Byte := Fin 256

/-- The bytes of an ASCII string literal of the source. -/
def cstr (s : String) : List Byte :=
  s.toList.map (fun c => Fin.ofNat c.toNat)

/-! ## `qhash` (kfmon.c, lines 276-288) -/

/-- Body of the `for` loop of `qhash`, on the 32-bit register `h`:
`h = (h << 4) + bytes[i]; h ^= (h & 0xf0000000) >> 23; h &= 0x0fffffff;`.
Both the shift and the addition are `unsigned int` operations and wrap
modulo `2^32`. -/
def qhash_body (h : Nat) (byte : Byte) : Nat :=
  let h1 := (((h <<< 4) % 2 ^ 32) + byte.val) % 2 ^ 32
  let h2 := h1 ^^^ ((h1 &&& 0xf0000000) >>> 23)
  h2 &&& 0x0fffffff

/-- The loop `for (i = 0; i < length; i++)` of `qhash`, entered with the
index `i` and the register `h`; `length` is the number of bytes. -/
def qhash_loop (bytes : List Byte) (i h : Nat) : Nat :=
  if hi : i < bytes.length then
    qhash_loop bytes (i + 1) (qhash_body h (bytes.get ⟨i, hi⟩))
  else
    h
termination_by bytes.length - i

/-- Embedding of `qhash(bytes, length)`: `h` starts at `0x00000000`. -/
def qhash (bytes : List Byte) : Nat :=
  qhash_loop bytes 0 0

/-- One round of the reference rolling hash, in the words of the
specification: `h := (h << 4) + byte; h := h xor ((h & 0xf0000000) >> 23);
h := h & 0x0fffffff`, the sum being kept in a 32-bit unsigned register. -/
def reference_round (h : Nat) (byte : Byte) : Nat :=
  let a := (h * 16 + byte.val) % 4294967296
  let x := Nat.xor a (Nat.land a 0xf0000000 / 8388608)
  Nat.land x 0x0fffffff

/-- The reference rolling hash of the specification: start from `h = 0` and
apply one round per byte, in order. -/
def reference_hash (bytes : List Byte) : Nat :=
  bytes.foldl reference_round 0

/-! ## The environment of the daemon -/

/-- Compile-time settings of `kfmon.h`, a header that is not part of the
sources at hand: they are parameters of the embedding. -/
structure Config where
  /-- The string `KFMON_TARGET_MOUNTPOINT`. -/
  KFMON_TARGET_MOUNTPOINT : List Byte
  /-- The string `KOBO_DB_PATH`. -/
  KOBO_DB_PATH : List Byte

/-- The constant `PATH_MAX` of `<limits.h>` on Linux. -/
def PATH_MAX : Nat := 4096

/-- The four SQL statements `is_target_processed` prepares and steps. -/
inductive Sql where
  | selectExists
  | selectImageID
  | selectTitle
  | updateContent
  deriving DecidableEq, Repr

/-- What the daemon does to its environment, in program order. Log lines
are not recorded. -/
inductive Effect where
  /-- Call of `sqlite3_open_v2`, read-write or read-only. -/
  | dbOpen (readWrite : Bool)
  /-- Call of `sqlite3_busy_timeout(db, ms)`. -/
  | busyTimeout (ms : Int)
  /-- A statement is prepared, bound and stepped once. -/
  | sql (stmt : Sql)
  /-- Call of `access(path, F_OK)`. -/
  | access (path : List Byte)
  /-- Call of `usleep(usec)`. -/
  | usleep (usec : Nat)
  /-- Call of `sqlite3_close`. -/
  | dbClose
  /-- Call of `sigprocmask(SIG_BLOCK, ...)` on `SIGCHLD`. -/
  | blockSigchld
  /-- Call of `fork()` inside `spawn`, with the value it returned to the
  daemon. -/
  | fork (ret : Int)
  /-- Call of `sigprocmask(SIG_UNBLOCK, ...)` on `SIGCHLD`. -/
  | unblockSigchld
  /-- Call of `waitpid` that returned the pid of a dead child, after which
  the handler reset `last_spawned_pid` to 0. -/
  | reaped (cpid : Int)
  /-- Call of `inotify_rm_watch(fd, wd)`. -/
  | rmWatch
  deriving DecidableEq, Repr

/-- Number of `access` calls in a trace. -/
def accessCalls : List Effect → Nat
  | [] => 0
  | Effect.access _ :: t => accessCalls t + 1
  | _ :: t => accessCalls t

/-- Number of `usleep` calls in a trace. -/
def usleepCalls : List Effect → Nat
  | [] => 0
  | Effect.usleep _ :: t => usleepCalls t + 1
  | _ :: t => usleepCalls t

/-- What one invocation of `is_target_processed` gets from the database
driver and the file system.

The results of `sqlite3_step`, which the source inspects itself, are
inputs. The driver calls wrapped in `CALL_SQLITE` (`open_v2`, `prepare_v2`,
`bind_text`) end the process when they fail: `is_target_processed` is the
run in which they succeed, `is_target_processed_or_exit` adds their
failures. -/
structure World where
  /-- Step of `SELECT EXISTS(SELECT 1 FROM content WHERE ContentID = @id AND
  ContentType = '6')`: `some v` when it returns `SQLITE_ROW` with
  `sqlite3_column_int(stmt, 0) = v`, `none` for any other return code. -/
  exists_step : Option Int
  /-- Step of `SELECT ImageID FROM content WHERE ...`: `some image_id` when
  it returns `SQLITE_ROW`, `image_id` being what `sqlite3_column_text` points
  to: `some bytes` for a text of `sqlite3_column_bytes` bytes, `none` for
  the NULL pointer of an SQL NULL. -/
  image_step : Option (Option (List Byte))
  /-- Step of `SELECT Title FROM content WHERE ...`: the text of the row,
  taken not to be an SQL NULL (the source hands it to `strcmp`). -/
  title_step : Option (List Byte)
  /-- Whether the step of the `UPDATE` returns `SQLITE_DONE`; it only
  decides which line is logged. -/
  update_done : Bool
  /-- Answer `access n path` of the file system to the `n`-th call (from 0)
  of `access(path, F_OK)` in this invocation: `true` when it returns 0. -/
  access : Nat → List Byte → Bool

/-! ## String formatting -/

/-- What `%s` prints of a NUL-terminated buffer holding `s`: the bytes
before the first NUL. -/
def fmt_s (s : List Byte) : List Byte :=
  s.takeWhile (fun b => b != 0)

/-- What `%s` prints of a pointer that may be NULL: the C library of the
device (glibc) prints `(null)` for the NULL pointer. -/
def fmt_s_ptr : Option (List Byte) → List Byte
  | some s => fmt_s s
  | none => cstr "(null)"

/-- The `len` bytes `qhash(image_id, len)` reads at the pointer
`sqlite3_column_text` returned, `len` being `sqlite3_column_bytes`: none for
the NULL pointer, whose `len` is 0. -/
def column_bytes : Option (List Byte) → List Byte
  | some bytes => bytes
  | none => []

/-- What `%d` prints of a non-negative number. -/
def fmt_d (n : Nat) : List Byte :=
  (Nat.toDigits 10 n).map (fun c => Fin.ofNat c.toNat)

/-- The string `snprintf(buf, size, ...)` leaves in `buf`, given the fully
formatted output: at most `size - 1` bytes of it. -/
def snprintf (size : Nat) (formatted : List Byte) : List Byte :=
  formatted.take (size - 1)

/-! ## `is_target_processed` (kfmon.c, lines 290-464) -/

/-- The shard `dir1 = hash & (0xff * 1)`. -/
def dir1 (hash : Nat) : Nat := hash &&& (0xff * 1)

/-- The shard `dir2 = (hash & (0xff00 * 1)) >> 8`. -/
def dir2 (hash : Nat) : Nat := (hash &&& (0xff00 * 1)) >>> 8

/-- The buffer `images_path`: `"%s/.kobo-images/%d/%d"` of the mountpoint and the two
shard components of the hash of the bytes of the image identifier (lines
351-356). -/
def images_path (cfg : Config) (image_id : List Byte) : List Byte :=
  let hash := qhash image_id
  snprintf PATH_MAX
    (fmt_s cfg.KFMON_TARGET_MOUNTPOINT ++ cstr "/.kobo-images/" ++ fmt_d (dir1 hash)
      ++ cstr "/" ++ fmt_d (dir2 hash))

/-- The buffer `ss_path`: `"%s/%s - N3_FULL.parsed"` of `images_path` and
the pointer `image_id` (line 366). -/
def ss_path (cfg : Config) (image_id : Option (List Byte)) : List Byte :=
  snprintf PATH_MAX
    (fmt_s (images_path cfg (column_bytes image_id)) ++ cstr "/" ++ fmt_s_ptr image_id
      ++ cstr " - N3_FULL.parsed")

/-- The buffer `tile_path`: `"%s/%s - N3_LIBRARY_FULL.parsed"` of
`images_path` and the pointer `image_id` (line 378). -/
def tile_path (cfg : Config) (image_id : Option (List Byte)) : List Byte :=
  snprintf PATH_MAX
    (fmt_s (images_path cfg (column_bytes image_id)) ++ cstr "/" ++ fmt_s_ptr image_id
      ++ cstr " - N3_LIBRARY_FULL.parsed")

/-- The buffer `thumb_path`: `"%s/%s - N3_LIBRARY_GRID.parsed"` of
`images_path` and the pointer `image_id` (line 387). -/
def thumb_path (cfg : Config) (image_id : Option (List Byte)) : List Byte :=
  snprintf PATH_MAX
    (fmt_s (images_path cfg (column_bytes image_id)) ++ cstr "/" ++ fmt_s_ptr image_id
      ++ cstr " - N3_LIBRARY_GRID.parsed")

/-- Lines 313-327: the existence query; the new value of `is_processed`. -/
def row_check (w : World) : Int :=
  match w.exists_step with
  | some v => if v = 1 then 1 else 0
  | none => 0

/-- Lines 361-396: the three `access` probes, counted in `thumbnails_num`.
Gives the value of `thumbnails_num` after the third probe. -/
def thumbnails_num (cfg : Config) (w : World) (image_id : Option (List Byte)) : Nat :=
  let n0 := 0
  let n1 := if w.access 0 (ss_path cfg image_id) then n0 + 1 else n0
  let n2 := if w.access 1 (tile_path cfg image_id) then n1 + 1 else n1
  let n3 := if w.access 2 (thumb_path cfg image_id) then n2 + 1 else n2
  n3

/-- Lines 331-400: entered with `is_processed` non-zero. `is_processed` is
reset to 0, the image identifier is fetched and, when the step gives a row
(its `image_id` pointer may be NULL), the three thumbnails are probed;
`is_processed` becomes 1 when `thumbnails_num >= 3`. -/
def thumbnails_check (cfg : Config) (w : World) : Int × List Effect :=
  match w.image_step with
  | some image_id =>
    let probes := [Effect.access (ss_path cfg image_id), Effect.access (tile_path cfg image_id),
      Effect.access (thumb_path cfg image_id)]
    if thumbnails_num cfg w image_id ≥ 3 then
      (1, Effect.sql Sql.selectImageID :: probes)
    else
      (0, Effect.sql Sql.selectImageID :: probes)
  | none => (0, [Effect.sql Sql.selectImageID])

/-- Lines 405-422: entered with `is_processed && update`; the value of
`needs_update`. -/
def title_check (w : World) : Int :=
  match w.title_step with
  | some title => if fmt_s title ≠ cstr "KOReader" then 1 else 0
  | none => 0

/-- Lines 449-458: the loop waiting for the rollback journal to go away,
entered with the local `count` and with `n` calls of `access` already made.
Each round probes the journal; when it is there, the log line increments
`count` (`LOG(..., count++)`, the logging helper of `kfmon.h` evaluating its
arguments once), the daemon sleeps 250 ms and leaves the loop when
`count > 30`. -/
def journal_loop (cfg : Config) (w : World) (n count : Nat) : List Effect :=
  let journal := cfg.KOBO_DB_PATH ++ cstr "-journal"
  if w.access n journal then
    if count + 1 > 30 then
      [Effect.access journal, Effect.usleep (250 * 1000)]
    else
      Effect.access journal :: Effect.usleep (250 * 1000) :: journal_loop cfg w (n + 1) (count + 1)
  else
    [Effect.access journal]
termination_by 31 - count

/-- Embedding of `is_target_processed(update, wait_for_db)`: the value it
returns and what it did. -/
def is_target_processed (cfg : Config) (w : World) (update wait_for_db : Int) :
    Int × List Effect :=
  let t0 := [Effect.dbOpen (decide (update ≠ 0)), Effect.busyTimeout (400 * (wait_for_db + 1)),
    Effect.sql Sql.selectExists]
  let is_processed0 := row_check w
  let r1 := if is_processed0 ≠ 0 then thumbnails_check cfg w else (is_processed0, [])
  let is_processed := r1.1
  let t1 := t0 ++ r1.2
  let needs_update := if is_processed ≠ 0 ∧ update ≠ 0 then title_check w else 0
  let t2 := if is_processed ≠ 0 ∧ update ≠ 0 then t1 ++ [Effect.sql Sql.selectTitle] else t1
  let t3 := if needs_update ≠ 0 then t2 ++ [Effect.sql Sql.updateContent] else t2
  let t4 := if is_processed ≠ 0 ∧ wait_for_db ≠ 0 then
      t3 ++ journal_loop cfg w (accessCalls t3) 0
    else t3
  (is_processed, t4 ++ [Effect.dbClose])

/-! ## `spawn`, `handle_events` and `reaper` (kfmon.c, lines 466-617) -/

/-- Bits of the inotify event mask, from `<sys/inotify.h>`. -/
def IN_CLOSE_WRITE : Nat := 0x00000008

/-- Bit `IN_CLOSE_NOWRITE` of `<sys/inotify.h>`. -/
def IN_CLOSE_NOWRITE : Nat := 0x00000010

/-- Bit `IN_OPEN` of `<sys/inotify.h>`. -/
def IN_OPEN : Nat := 0x00000020

/-- The two bits of `IN_CLOSE` of `<sys/inotify.h>`. -/
def IN_CLOSE : Nat := IN_CLOSE_WRITE ||| IN_CLOSE_NOWRITE

/-- Bit `IN_UNMOUNT` of `<sys/inotify.h>`. -/
def IN_UNMOUNT : Nat := 0x00002000

/-- Bit `IN_Q_OVERFLOW` of `<sys/inotify.h>`. -/
def IN_Q_OVERFLOW : Nat := 0x00004000

/-- Bit `IN_IGNORED` of `<sys/inotify.h>`. -/
def IN_IGNORED : Nat := 0x00008000

/-- The fields of `struct inotify_event` the handler reads. -/
structure inotify_event where
  /-- The field `mask`. -/
  mask : Nat
  /-- The field `len`, the size of the optional name. -/
  len : Nat

/-- The value `fork()` returns in the daemon: negative when it fails, the
pid of the child otherwise. The value 0 is returned in the child only, where
`spawn` calls `execvp` and, should that fail, `exit`: that branch never
returns to `handle_events`. -/
structure ForkRet where
  /-- The returned value. -/
  pid : Int
  /-- It is not 0 in the daemon. -/
  inDaemon : pid ≠ 0

/-- The mutable state shared by the event handler and the signal handler. -/
structure Watcher where
  /-- The global `last_spawned_pid`. -/
  last_spawned_pid : Int
  /-- The `static int pending_processing` of `handle_events`, which keeps
  its value from one call to the next. -/
  pending_processing : Int

/-- What the environment answers while one event is handled. -/
structure EventEnv where
  /-- The database and file system met by `is_target_processed(0, 0)`,
  should the `IN_OPEN` branch call it. -/
  open_world : World
  /-- The database and file system met by `is_target_processed(0, 1)`,
  should the `IN_CLOSE` branch call it. -/
  close_world : World
  /-- The value of `fork()`, should `spawn` be called. -/
  fork_ret : ForkRet

/-- Embedding of `spawn(command)` in the daemon, given the value of
`fork()`: `if (pid < 0) return pid;` and, past the child's branch,
`return pid;`. -/
def spawn (f : ForkRet) : Int :=
  if f.pid < 0 then f.pid else f.pid

/-- Lines 524-538: the `IN_OPEN` branch. -/
def on_open (cfg : Config) (s : Watcher) (env : EventEnv) : Watcher × List Effect :=
  if s.last_spawned_pid = 0 then
    let r := is_target_processed cfg env.open_world 0 0
    if r.1 = 0 then
      ({ s with pending_processing := 1 }, r.2)
    else
      ({ s with pending_processing := 0 }, r.2)
  else
    (s, [])

/-- Lines 539-567: the `IN_CLOSE` branch. The condition
`!pending_processing && is_target_processed(0, 1)` calls the oracle only
when `pending_processing` is 0. -/
def on_close (cfg : Config) (s : Watcher) (env : EventEnv) : Watcher × List Effect :=
  if s.last_spawned_pid = 0 then
    if s.pending_processing = 0 then
      let r := is_target_processed cfg env.close_world 0 1
      if r.1 ≠ 0 then
        ({ s with last_spawned_pid := spawn env.fork_ret },
          r.2 ++ [Effect.blockSigchld, Effect.fork env.fork_ret.pid, Effect.unblockSigchld])
      else
        (s, r.2)
    else
      (s, [])
  else
    (s, [])

/-- State of the loops of `handle_events` after one event. -/
structure Handled where
  /-- The shared state. -/
  watcher : Watcher
  /-- The local `destroyed_wd`. -/
  destroyed_wd : Int
  /-- What was done, in order. -/
  effects : List Effect

/-- Lines 521-588: the body of the inner `for` loop of `handle_events`, for
one decoded event. The five tests on the mask are independent `if`s, run in
this order: `IN_OPEN`, `IN_CLOSE`, `IN_UNMOUNT` (a log line only),
`IN_IGNORED`, `IN_Q_OVERFLOW`. -/
def handle_event (cfg : Config) (s : Watcher) (destroyed_wd : Int) (event : inotify_event)
    (env : EventEnv) : Handled :=
  let a := if event.mask &&& IN_OPEN ≠ 0 then on_open cfg s env else (s, [])
  let b := if event.mask &&& IN_CLOSE ≠ 0 then on_close cfg a.1 env else (a.1, [])
  let d1 := if event.mask &&& IN_IGNORED ≠ 0 then 1 else destroyed_wd
  let c : List Effect × Int :=
    if event.mask &&& IN_Q_OVERFLOW ≠ 0 then ([Effect.rmWatch], 1) else ([], d1)
  { watcher := b.1, destroyed_wd := c.2, effects := a.2 ++ b.2 ++ c.1 }

/-- Embedding of `reaper`, the `SIGCHLD` handler, given the successive
values of `waitpid(-1, &wstatus, WNOHANG)`: every value `> 0` is a reaped
child and resets `last_spawned_pid`; the first other value ends the loop
(so does the end of the list: no child is left to report). -/
def reaper (s : Watcher) : List Int → Watcher × List Effect
  | [] => (s, [])
  | cpid :: rest =>
    if cpid > 0 then
      let r := reaper { s with last_spawned_pid := 0 } rest
      (r.1, Effect.reaped cpid :: r.2)
    else
      (s, [])

/-- What happens to the daemon while it listens: an inotify event is handled,
or `SIGCHLD` is delivered and the handler runs. -/
inductive Action where
  | event (ev : inotify_event) (env : EventEnv)
  | sigchld (waits : List Int)

/-- The daemon going through a sequence of events and signal deliveries:
the final shared state and everything done on the way. -/
def run (cfg : Config) (s : Watcher) : List Action → Watcher × List Effect
  | [] => (s, [])
  | Action.event ev env :: rest =>
    let h := handle_event cfg s 0 ev env
    let r := run cfg h.watcher rest
    (r.1, h.effects ++ r.2)
  | Action.sigchld waits :: rest =>
    let h := reaper s waits
    let r := run cfg h.1 rest
    (r.1, h.2 ++ r.2)

/-! ## `is_target_mounted` and `wait_for_target_mountpoint` (lines 103-157) -/

/-- The field of `struct mntent` the scan reads. -/
structure mntent where
  /-- The field `mnt_dir`; `none` for a NULL pointer. -/
  mnt_dir : Option (List Byte)

/-- The `while ((part = getmntent(mtab)) != NULL)` loop of
`is_target_mounted`, from the local `is_mounted = 0`. -/
def scan_mounts (cfg : Config) : List mntent → Int
  | [] => 0
  | part :: rest =>
    match part.mnt_dir with
    | some dir => if dir = cfg.KFMON_TARGET_MOUNTPOINT then 1 else scan_mounts cfg rest
    | none => scan_mounts cfg rest

/-- Embedding of `is_target_mounted()`, given `/proc/mounts`: `none` when
`setmntent` fails, the entries otherwise. -/
def is_target_mounted (cfg : Config) (mtab : Option (List mntent)) : Int :=
  match mtab with
  | some parts => scan_mounts cfg parts
  | none => 0

/-- Bit `POLLERR` of `<poll.h>`. -/
def POLLERR : Nat := 0x008

/-- What one call of `poll(&pfd, 1, 5)` gives, and the mount table at that
time. -/
structure PollResult where
  /-- The value returned by `poll`. -/
  rv : Int
  /-- The field `pfd.revents` it leaves. -/
  revents : Nat
  /-- The content of `/proc/mounts`, should `is_target_mounted` read it. -/
  mtab : Option (List mntent)

/-- How far `wait_for_target_mountpoint` got on the polls supplied. -/
inductive WaitOutcome where
  /-- The loop was left and the function returned. -/
  | returned
  /-- The call `exit(EXIT_FAILURE)` was made. -/
  | exited
  /-- The polls supplied are used up: the daemon is in its next `poll`,
  with the counter `changes` at this value. -/
  | polling (changes : Int)
  deriving DecidableEq, Repr

/-- Lines 139-156: the `while` loop of `wait_for_target_mountpoint`, entered
with the counter `changes`. The log line `LOG("... (iteration nr. %d)",
changes++)` increments the counter (the logging helper of `kfmon.h`
evaluating its arguments once). -/
def wait_loop (cfg : Config) (changes : Int) : List PollResult → WaitOutcome
  | [] => WaitOutcome.polling changes
  | p :: rest =>
    if p.rv ≥ 0 then
      if p.revents &&& POLLERR ≠ 0 then
        if is_target_mounted cfg p.mtab ≠ 0 then
          WaitOutcome.returned
        else if changes + 1 > 15 then
          WaitOutcome.exited
        else
          wait_loop cfg (changes + 1) rest
      else if changes > 15 then
        WaitOutcome.exited
      else
        wait_loop cfg changes rest
    else
      WaitOutcome.returned

/-- Embedding of `wait_for_target_mountpoint()`: `changes` starts at 0. -/
def wait_for_target_mountpoint (cfg : Config) (polls : List PollResult) : WaitOutcome :=
  wait_loop cfg 0 polls

/-- The thumbnail path in the words of the specification:
`<mountpoint>/.kobo-images/<dir1>/<dir2>/<ImageID><marker>`. The mountpoint
is the C string `KFMON_TARGET_MOUNTPOINT` denotes, `<dir1>` and `<dir2>` are
the decimal shard components of the hash of the bytes of the ImageID, and
the marker is one of ` - N3_FULL.parsed`, ` - N3_LIBRARY_FULL.parsed` and
` - N3_LIBRARY_GRID.parsed`. -/
def thumbnail_template (cfg : Config) (image_id marker : List Byte) : List Byte :=
  fmt_s cfg.KFMON_TARGET_MOUNTPOINT ++ cstr "/.kobo-images/" ++ fmt_d (dir1 (qhash image_id))
    ++ cstr "/" ++ fmt_d (dir2 (qhash image_id)) ++ cstr "/" ++ image_id ++ marker

/-! ## The launch discipline, read off a trace -/

/-- Whether an effect is neither a `fork` nor a reaped child. -/
def Effect.isQuiet : Effect → Bool
  | Effect.fork _ => false
  | Effect.reaped _ => false
  | _ => true

/-- Whether an effect opens the database, which every call of
`is_target_processed` starts with. -/
def Effect.isDbOpen : Effect → Bool
  | Effect.dbOpen _ => true
  | _ => false

/-- Whether a trace respects the launch discipline, read from left to
right with the flag `busy` telling that a launch is in flight: a `fork` is
allowed only when no launch is in flight and puts one in flight, a reaped
child ends it. -/
def serialised : Bool → List Effect → Bool
  | _, [] => true
  | busy, Effect.fork _ :: t => !busy && serialised true t
  | _, Effect.reaped _ :: t => serialised false t
  | busy, _ :: t => serialised busy t

/-- The flag `busy` at the end of a trace. -/
def busyAfter : Bool → List Effect → Bool
  | busy, [] => busy
  | _, Effect.fork _ :: t => busyAfter true t
  | _, Effect.reaped _ :: t => busyAfter false t
  | busy, _ :: t => busyAfter busy t

/-- The flag "a launch is in flight", as the daemon stores it. -/
def Watcher.busy (s : Watcher) : Bool := decide (s.last_spawned_pid ≠ 0)

/-- Number of polls of a list that report a change of the mount table
(`pfd.revents & POLLERR`). -/
def changesIn : List PollResult → Nat
  | [] => 0
  | p :: rest => if p.revents &&& POLLERR ≠ 0 then changesIn rest + 1 else changesIn rest

/-! ## Sample inputs -/

/-- A database holding the processed content row with the given image
identifier, a file system in which every probed file exists, the rollback
journal included, for ever. -/
def journal_stuck_world (image_id : List Byte) : World :=
  { exists_step := some 1
    image_step := some (some image_id)
    title_step := none
    update_done := true
    access := fun _ _ => true }

/-- A device with the usual Kobo layout. -/
def kobo_cfg : Config :=
  { KFMON_TARGET_MOUNTPOINT := cstr "/mnt/onboard"
    KOBO_DB_PATH := cstr "/mnt/onboard/.kobo/KoboReader.sqlite" }

/-- The content row is there with the image identifier "abc123", the three
thumbnails exist and no rollback journal is left (the first three probes
succeed, the fourth fails). -/
def ready_world : World :=
  { exists_step := some 1
    image_step := some (some (cstr "abc123"))
    title_step := none
    update_done := true
    access := fun n _ => decide (n < 3) }

/-- The content row is not there yet. -/
def unindexed_world : World :=
  { exists_step := some 0
    image_step := none
    title_step := none
    update_done := true
    access := fun _ _ => false }

/-- An `IN_OPEN` event. -/
def open_event : inotify_event := { mask := IN_OPEN, len := 0 }

/-- An `IN_CLOSE_NOWRITE` event. -/
def close_event : inotify_event := { mask := IN_CLOSE_NOWRITE, len := 0 }

/-- The oracle finds the target unprocessed, at open and at close time. -/
def unindexed_env : EventEnv :=
  { open_world := unindexed_world
    close_world := unindexed_world
    fork_ret := { pid := 1234, inDaemon := by decide } }

/-- The oracle finds the target processed, at open and at close time, and
`fork` gives the child 1234. -/
def ready_env : EventEnv :=
  { open_world := ready_world
    close_world := ready_world
    fork_ret := { pid := 1234, inDaemon := by decide } }

/-- As `ready_env`, `fork` giving the child 1235. -/
def ready_env_again : EventEnv :=
  { open_world := ready_world
    close_world := ready_world
    fork_ret := { pid := 1235, inDaemon := by decide } }

/-- A poll reporting a change of the mount table, the target mountpoint not
being in it. -/
def change_without_target : PollResult :=
  { rv := 1, revents := POLLERR, mtab := some [{ mnt_dir := some (cstr "/") }] }

/-- A poll reporting a change of the mount table, the target mountpoint
being in it. -/
def change_with_target : PollResult :=
  { rv := 1, revents := POLLERR
    mtab := some [{ mnt_dir := some (cstr "/") }, { mnt_dir := some (cstr "/mnt/onboard") }] }

/-- A poll that times out: nothing changed. -/
def poll_timeout : PollResult :=
  { rv := 0, revents := 0, mtab := none }

/-! ## The loops of `handle_events` (kfmon.c, lines 503-597) -/

/-- One decoded event of a buffer, with what the environment answers while
it is handled. -/
abbrev QueuedEvent := inotify_event × EventEnv

/-- What the `read` that follows the last buffer of events gives. -/
inductive ReadEnd where
  /-- The value -1 with `errno == EAGAIN`: the queue is empty. -/
  | eagain
  /-- The value 0. -/
  | nothing
  /-- The value -1 with another `errno`. -/
  | failure
  deriving DecidableEq, Repr

/-- Lines 519-589: the inner `for` loop of `handle_events` over the events
decoded from one buffer, in the order of the buffer, entered with the shared
state and the local `destroyed_wd`. -/
def handle_buffer (cfg : Config) (s : Watcher) (destroyed_wd : Int) :
    List QueuedEvent → Handled
  | [] => { watcher := s, destroyed_wd := destroyed_wd, effects := [] }
  | (event, env) :: rest =>
    let h := handle_event cfg s destroyed_wd event env
    let r := handle_buffer cfg h.watcher h.destroyed_wd rest
    { watcher := r.watcher, destroyed_wd := r.destroyed_wd, effects := h.effects ++ r.effects }

/-- How a call of `handle_events` ends. -/
structure EventsResult where
  /-- The value returned, `destroyed_wd`; `none` when the process was ended
  by `exit(EXIT_FAILURE)` on a failed `read`. -/
  ret : Option Int
  /-- The shared state at that point. -/
  watcher : Watcher
  /-- What was done, in order. -/
  effects : List Effect

/-- Lines 504-594: the outer `for (;;)` loop of `handle_events`, entered
with the shared state and the local `destroyed_wd`. Every element of
`buffers` is a `read` that returned `len > 0`, with the events decoded from
it; `last` is what the `read` after them gives. A failed `read` ends the
process, a `read` that finds nothing leaves the loop, and so does a buffer
after which `destroyed_wd` is set: the buffers behind it are not read. -/
def read_loop (cfg : Config) (s : Watcher) (destroyed_wd : Int) :
    List (List QueuedEvent) → ReadEnd → EventsResult
  | [], ReadEnd.failure => { ret := none, watcher := s, effects := [] }
  | [], _ => { ret := some destroyed_wd, watcher := s, effects := [] }
  | buffer :: more, last =>
    let h := handle_buffer cfg s destroyed_wd buffer
    if h.destroyed_wd ≠ 0 then
      { ret := some h.destroyed_wd, watcher := h.watcher, effects := h.effects }
    else
      let r := read_loop cfg h.watcher h.destroyed_wd more last
      { ret := r.ret, watcher := r.watcher, effects := h.effects ++ r.effects }

/-- Embedding of `handle_events(fd, wd)`: `destroyed_wd` starts at 0. -/
def handle_events (cfg : Config) (s : Watcher) (buffers : List (List QueuedEvent))
    (last : ReadEnd) : EventsResult :=
  read_loop cfg s 0 buffers last

/-- Number of `inotify_rm_watch` calls in a trace. -/
def rmWatchCalls : List Effect → Nat
  | [] => 0
  | Effect.rmWatch :: t => rmWatchCalls t + 1
  | _ :: t => rmWatchCalls t

/-- Whether the mask carries the watch-invalidated bit `IN_IGNORED` or the
queue-overflow bit `IN_Q_OVERFLOW`. -/
def endsCycle (q : QueuedEvent) : Bool :=
  decide (q.1.mask &&& IN_IGNORED ≠ 0) || decide (q.1.mask &&& IN_Q_OVERFLOW ≠ 0)

/-- Whether the mask carries the queue-overflow bit `IN_Q_OVERFLOW`. -/
def isOverflow (q : QueuedEvent) : Bool :=
  decide (q.1.mask &&& IN_Q_OVERFLOW ≠ 0)

/-- The events of the buffers up to, and including, the first buffer that
holds an event with the watch-invalidated or the queue-overflow bit. -/
def eventsRead : List (List QueuedEvent) → List QueuedEvent
  | [] => []
  | buffer :: more => if buffer.any endsCycle then buffer else buffer ++ eventsRead more

/-! ## The hash recurrence without a register width -/

/-- One round of the recurrence of `qhash` over unbounded naturals: no
reduction modulo `2^32` anywhere. -/
def unbounded_round (h : Nat) (byte : Byte) : Nat :=
  let h1 := (h <<< 4) + byte.val
  let h2 := h1 ^^^ ((h1 &&& 0xf0000000) >>> 23)
  h2 &&& 0x0fffffff

/-- The recurrence of `qhash` over unbounded naturals, from `h = 0`. -/
def unbounded_hash (bytes : List Byte) : Nat :=
  bytes.foldl unbounded_round 0

/-! ## More sample inputs -/

/-- The target is processed and `fork` fails, returning -1. -/
def failed_fork_env : EventEnv :=
  { open_world := ready_world
    close_world := ready_world
    fork_ret := { pid := -1, inDaemon := by decide } }

/-- An `IN_UNMOUNT` event. -/
def unmount_event : inotify_event := { mask := IN_UNMOUNT, len := 0 }

/-- An `IN_IGNORED` event. -/
def ignored_event : inotify_event := { mask := IN_IGNORED, len := 0 }

/-- An `IN_Q_OVERFLOW` event. -/
def overflow_event : inotify_event := { mask := IN_Q_OVERFLOW, len := 0 }

/-! ## Driver failures in `is_target_processed` -/

/-- The code `SQLITE_OK` of `<sqlite3.h>`. -/
def SQLITE_OK : Int := 0

/-- Number of driver calls wrapped in `CALL_SQLITE` that a run of
`is_target_processed` makes when none of them fails: `open_v2`, `prepare_v2`
and `bind_text` of the existence query (lines 301-316); `prepare_v2` and
`bind_text` of the ImageID query when the row check passed (lines 336-339);
`prepare_v2` and `bind_text` of the Title query when `is_processed && update`
(lines 407-410); `prepare_v2` and four `bind_text` of the `UPDATE` when
`needs_update` (lines 424-433). -/
def wrapped_calls (cfg : Config) (w : World) (update : Int) : Nat :=
  let n0 := 3
  let is_processed0 := row_check w
  let n1 := if is_processed0 ≠ 0 then n0 + 2 else n0
  let is_processed := (if is_processed0 ≠ 0 then thumbnails_check cfg w else (is_processed0, [])).1
  let n2 := if is_processed ≠ 0 ∧ update ≠ 0 then n1 + 2 else n1
  let needs_update := if is_processed ≠ 0 ∧ update ≠ 0 then title_check w else 0
  if needs_update ≠ 0 then n2 + 5 else n2

/-- Modelled from the spec: the `CALL_SQLITE` wrapper of `kfmon.h`, a header
that is not part of the sources at hand. By the specification (4.2, failure
policy), any database-driver-level error is fatal to the whole process. Here
`rc k` is the code the `k`-th wrapped call (from 0, in program order)
returns: when one of the calls the run makes does not return `SQLITE_OK` the
process ends there and `is_target_processed` gives no value (`none`);
otherwise the run is the one of `is_target_processed`. -/
def is_target_processed_or_exit (cfg : Config) (w : World) (rc : Nat → Int)
    (update wait_for_db : Int) : Option (Int × List Effect) :=
  if (List.range (wrapped_calls cfg w update)).all (fun k => decide (rc k = SQLITE_OK)) then
    some (is_target_processed cfg w update wait_for_db)
  else
    none

/-- Every wrapped driver call succeeds. -/
def driver_ok : Nat → Int := fun _ => SQLITE_OK

/-- Three thumbnails named after `ab`, in the shard directory `99/114`. -/
def nul_image_files : List (List Byte) :=
  [cstr "/mnt/onboard/.kobo-images/99/114/ab - N3_FULL.parsed",
    cstr "/mnt/onboard/.kobo-images/99/114/ab - N3_LIBRARY_FULL.parsed",
    cstr "/mnt/onboard/.kobo-images/99/114/ab - N3_LIBRARY_GRID.parsed"]

/-- Three thumbnails named after `(null)`, in the shard directory `0/0`. -/
def null_image_files : List (List Byte) :=
  [cstr "/mnt/onboard/.kobo-images/0/0/(null) - N3_FULL.parsed",
    cstr "/mnt/onboard/.kobo-images/0/0/(null) - N3_LIBRARY_FULL.parsed",
    cstr "/mnt/onboard/.kobo-images/0/0/(null) - N3_LIBRARY_GRID.parsed"]

/-- The content row is there, its ImageID is the four bytes `ab\0c` (a text
with a NUL byte inside), and the file system holds exactly three thumbnails,
named after `ab` in the shard directory of the hash of the four bytes. -/
def nul_image_world : World :=
  { exists_step := some 1
    image_step := some (some [0x61, 0x62, 0x00, 0x63])
    title_step := none
    update_done := true
    access := fun _ path => decide (path ∈ nul_image_files) }

/-- The content row is there, its ImageID is an SQL NULL, and the file
system holds exactly three thumbnails, named after `(null)` in the shard
directory `0/0`. -/
def null_image_world : World :=
  { exists_step := some 1
    image_step := some none
    title_step := none
    update_done := true
    access := fun _ path => decide (path ∈ null_image_files) }

/-- The content row is there, its ImageID is a text of 4060 bytes `a`, and
the file system holds a file at every path that fits `PATH_MAX` and none at
a longer one. -/
def long_image_world : World :=
  { exists_step := some 1
    image_step := some (some (List.replicate 4060 0x61))
    title_step := none
    update_done := true
    access := fun _ path => decide (path.length < PATH_MAX) }

/-- Every wrapped driver call fails with `SQLITE_ERROR` (1). -/
def driver_error : Nat → Int := fun _ => 1

/-! ## Facts about `qhash` -/

theorem qhash_body_eq_reference_round (h : Nat) (byte : Byte) :
    qhash_body h byte = reference_round h byte := by
  simp only [qhash_body, reference_round, Nat.shiftLeft_eq, Nat.shiftRight_eq_div_pow]
  have e : (h * 2 ^ 4 % 2 ^ 32 + byte.val) % 2 ^ 32 = (h * 16 + byte.val) % 4294967296 := by
    norm_num [Nat.add_mod]
  rw [e]
  rfl

theorem qhash_loop_eq_foldl (bytes : List Byte) (k : Nat) :
    ∀ i h, bytes.length - i = k →
      qhash_loop bytes i h = (bytes.drop i).foldl qhash_body h := by
  induction k with
  | zero =>
    intro i h hk
    have hi : ¬ i < bytes.length := by omega
    rw [qhash_loop, dif_neg hi, List.drop_eq_nil_of_le (by omega)]
    rfl
  | succ k ih =>
    intro i h hk
    have hi : i < bytes.length := by omega
    rw [qhash_loop, dif_pos hi, ih (i + 1) _ (by omega)]
    rw [List.drop_eq_getElem_cons hi]
    rfl

theorem qhash_eq_foldl (bytes : List Byte) : qhash bytes = bytes.foldl qhash_body 0 := by
  rw [qhash, qhash_loop_eq_foldl bytes bytes.length 0 0 (by omega)]
  rfl

/-- C1: for every byte sequence, `qhash` computes the reference rolling
hash of the specification (start from 0, one shift-add / fold / mask round
per byte in a 32-bit register); in particular the result depends on the
bytes only, and the empty sequence hashes to 0. -/
theorem qhash_matches_reference (bytes : List Byte) :
    qhash bytes = reference_hash bytes
      ∧ (∀ other : List Byte, other = bytes → qhash other = qhash bytes)
      ∧ qhash [] = 0 := by
  refine ⟨?_, ?_, ?_⟩
  · rw [qhash_eq_foldl, reference_hash]
    congr 1
    funext h b
    exact qhash_body_eq_reference_round h b
  · intro other ho
    rw [ho]
  · rw [qhash_eq_foldl]
    rfl

/-! ## Facts about `is_target_processed` -/

theorem row_check_eq_one_iff (w : World) : row_check w = 1 ↔ w.exists_step = some 1 := by
  unfold row_check
  cases h : w.exists_step with
  | none => simp
  | some v =>
    by_cases hv : v = 1
    · simp [hv]
    · simp [hv]

theorem row_check_cases (w : World) : row_check w = 1 ∨ row_check w = 0 := by
  unfold row_check
  cases w.exists_step with
  | none => simp
  | some v =>
    by_cases hv : v = 1
    · simp [hv]
    · simp [hv]

theorem thumbnails_num_ge_three_iff (cfg : Config) (w : World)
    (image_id : Option (List Byte)) :
    thumbnails_num cfg w image_id ≥ 3 ↔
      w.access 0 (ss_path cfg image_id) = true ∧ w.access 1 (tile_path cfg image_id) = true
        ∧ w.access 2 (thumb_path cfg image_id) = true := by
  unfold thumbnails_num
  cases w.access 0 (ss_path cfg image_id) <;> cases w.access 1 (tile_path cfg image_id) <;>
    cases w.access 2 (thumb_path cfg image_id) <;> simp

theorem thumbnails_check_eq_one_iff (cfg : Config) (w : World) :
    (thumbnails_check cfg w).1 = 1 ↔
      ∃ image_id, w.image_step = some image_id
        ∧ w.access 0 (ss_path cfg image_id) = true ∧ w.access 1 (tile_path cfg image_id) = true
        ∧ w.access 2 (thumb_path cfg image_id) = true := by
  unfold thumbnails_check
  cases h : w.image_step with
  | none => simp
  | some image_id =>
    by_cases h3 : thumbnails_num cfg w image_id ≥ 3
    · simpa [h3] using (thumbnails_num_ge_three_iff cfg w image_id).mp h3
    · have := (thumbnails_num_ge_three_iff cfg w image_id).not.mp h3
      simpa [h3] using this

theorem thumbnails_check_cases (cfg : Config) (w : World) :
    (thumbnails_check cfg w).1 = 1 ∨ (thumbnails_check cfg w).1 = 0 := by
  unfold thumbnails_check
  cases w.image_step with
  | none => simp
  | some image_id =>
    by_cases h3 : thumbnails_num cfg w image_id ≥ 3
    · simp [h3]
    · simp [h3]

/-- The value returned by `is_target_processed` is the flag left by the
row check and the thumbnail check. -/
theorem is_target_processed_fst (cfg : Config) (w : World) (update wait_for_db : Int) :
    (is_target_processed cfg w update wait_for_db).1
      = if row_check w ≠ 0 then (thumbnails_check cfg w).1 else row_check w := by
  unfold is_target_processed
  by_cases h : row_check w ≠ 0
  · simp [h]
  · simp [h]

theorem is_target_processed_cases (cfg : Config) (w : World) (update wait_for_db : Int) :
    (is_target_processed cfg w update wait_for_db).1 = 1
      ∨ (is_target_processed cfg w update wait_for_db).1 = 0 := by
  rw [is_target_processed_fst]
  by_cases h : row_check w ≠ 0
  · simpa [h] using thumbnails_check_cases cfg w
  · simpa [h] using row_check_cases w

/-- Called without metadata update, `is_target_processed` returns 1 exactly
when the existence query reports the row, the ImageID row is fetched and the
three probes of `ss_path`, `tile_path` and `thumb_path` succeed, and 0 in
every other case. -/
theorem is_target_processed_iff_probes (cfg : Config) (w : World)
    (wait_for_db : Int) :
    ((is_target_processed cfg w 0 wait_for_db).1 = 1 ↔
      (w.exists_step = some 1 ∧ ∃ image_id, w.image_step = some image_id
        ∧ w.access 0 (ss_path cfg image_id) = true ∧ w.access 1 (tile_path cfg image_id) = true
        ∧ w.access 2 (thumb_path cfg image_id) = true))
    ∧ ((is_target_processed cfg w 0 wait_for_db).1 = 0 ↔
      ¬ (w.exists_step = some 1 ∧ ∃ image_id, w.image_step = some image_id
        ∧ w.access 0 (ss_path cfg image_id) = true ∧ w.access 1 (tile_path cfg image_id) = true
        ∧ w.access 2 (thumb_path cfg image_id) = true)) := by
  have key : (is_target_processed cfg w 0 wait_for_db).1 = 1 ↔
      (w.exists_step = some 1 ∧ ∃ image_id, w.image_step = some image_id
        ∧ w.access 0 (ss_path cfg image_id) = true ∧ w.access 1 (tile_path cfg image_id) = true
        ∧ w.access 2 (thumb_path cfg image_id) = true) := by
    rw [is_target_processed_fst, ← row_check_eq_one_iff, ← thumbnails_check_eq_one_iff]
    rcases row_check_cases w with h | h
    · simp [h]
    · simp [h]
  refine ⟨key, ?_⟩
  rw [← key]
  rcases is_target_processed_cases cfg w 0 wait_for_db with h | h
  · simp [h]
  · simp [h]

/-- C4 (as claimed, refuted): the shard components of "abc123" are not
`dir1 = 12`, `dir2 = 34`. -/
theorem abc123_shards_not_12_34 :
    ¬ (dir1 (qhash (cstr "abc123")) = 12 ∧ dir2 (qhash (cstr "abc123")) = 34) := by
  rw [qhash_eq_foldl]
  decide

/-- C4 (amended): the hash of "abc123" is `0x6786453`, so that `dir1 = 83`
and `dir2 = 100`, and the thumbnails are looked up under
`<mountpoint>/.kobo-images/83/100`. -/
theorem abc123_shards (cfg : Config) :
    qhash (cstr "abc123") = 0x6786453
      ∧ dir1 (qhash (cstr "abc123")) = 83 ∧ dir2 (qhash (cstr "abc123")) = 100
      ∧ images_path cfg (cstr "abc123")
          = snprintf PATH_MAX (fmt_s cfg.KFMON_TARGET_MOUNTPOINT ++ cstr "/.kobo-images/83/100") := by
  have hq : qhash (cstr "abc123") = 0x6786453 := by
    rw [qhash_eq_foldl]
    decide
  refine ⟨hq, ?_, ?_, ?_⟩
  · rw [hq]
    decide
  · rw [hq]
    decide
  · unfold images_path
    simp only [hq]
    have e : fmt_d (dir1 0x6786453) ++ cstr "/" ++ fmt_d (dir2 0x6786453) = cstr "83/100" := by
      decide
    have e2 : cstr "/.kobo-images/83/100" = cstr "/.kobo-images/" ++ cstr "83/100" := by decide
    rw [e2, ← e]
    simp only [List.append_assoc]

/-! ## The thumbnail paths -/

theorem dir1_lt (hash : Nat) : dir1 hash < 256 := by
  unfold dir1
  exact Nat.and_lt_two_pow hash (by norm_num : 0xff * 1 < 2 ^ 8)

theorem dir2_lt (hash : Nat) : dir2 hash < 256 := by
  unfold dir2
  have h : hash &&& (0xff00 * 1) ≤ 0xff00 * 1 := Nat.and_le_right
  rw [Nat.shiftRight_eq_div_pow]
  omega

theorem fmt_s_of_no_nul (s : List Byte) (hs : (0 : Byte) ∉ s) : fmt_s s = s := by
  unfold fmt_s
  rw [List.takeWhile_eq_self_iff]
  intro b hb
  have : b ≠ 0 := fun h => hs (h ▸ hb)
  simpa using this

set_option maxRecDepth 100000 in
theorem fmt_d_no_nul : ∀ n, n < 256 → (0 : Byte) ∉ fmt_d n := by
  decide

theorem snprintf_of_fits (size : Nat) (formatted : List Byte) (h : formatted.length < size) :
    snprintf size formatted = formatted := by
  unfold snprintf
  exact List.take_of_length_le (by omega)

theorem fmt_s_no_nul (s : List Byte) : (0 : Byte) ∉ fmt_s s := by
  unfold fmt_s
  intro h
  have := List.mem_takeWhile_imp h
  simp at this

/-- For a non-NULL image identifier without NUL byte, and when the longest
of the three paths fits the `PATH_MAX` buffer, the paths probed are those
the specification names. -/
theorem thumbnail_paths_eq_template (cfg : Config) (image_id : List Byte)
    (hid : (0 : Byte) ∉ image_id)
    (hfit : (thumbnail_template cfg image_id (cstr " - N3_LIBRARY_FULL.parsed")).length
      < PATH_MAX) :
    ss_path cfg (some image_id) = thumbnail_template cfg image_id (cstr " - N3_FULL.parsed")
      ∧ tile_path cfg (some image_id)
          = thumbnail_template cfg image_id (cstr " - N3_LIBRARY_FULL.parsed")
      ∧ thumb_path cfg (some image_id)
          = thumbnail_template cfg image_id (cstr " - N3_LIBRARY_GRID.parsed") := by
  have hm := fmt_s_no_nul cfg.KFMON_TARGET_MOUNTPOINT
  have h1 := fmt_d_no_nul _ (dir1_lt (qhash image_id))
  have h2 := fmt_d_no_nul _ (dir2_lt (qhash image_id))
  have hl1 : (cstr " - N3_LIBRARY_FULL.parsed").length = 25 := by decide
  have hl2 : (cstr " - N3_LIBRARY_GRID.parsed").length = 25 := by decide
  have hl3 : (cstr " - N3_FULL.parsed").length = 17 := by decide
  have hslash : (0 : Byte) ∉ cstr "/" := by decide
  have hkobo : (0 : Byte) ∉ cstr "/.kobo-images/" := by decide
  simp only [thumbnail_template, List.length_append, hl1] at hfit
  have himg : images_path cfg image_id
      = fmt_s cfg.KFMON_TARGET_MOUNTPOINT ++ cstr "/.kobo-images/"
        ++ fmt_d (dir1 (qhash image_id)) ++ cstr "/" ++ fmt_d (dir2 (qhash image_id)) := by
    unfold images_path
    exact snprintf_of_fits _ _ (by simp only [List.length_append]; omega)
  have himg0 : (0 : Byte) ∉ images_path cfg image_id := by
    rw [himg]
    simp only [List.mem_append, not_or]
    exact ⟨⟨⟨⟨hm, hkobo⟩, h1⟩, hslash⟩, h2⟩
  refine ⟨?_, ?_, ?_⟩
  · simp only [ss_path, thumbnail_template, fmt_s_ptr, column_bytes]
    rw [fmt_s_of_no_nul _ himg0, fmt_s_of_no_nul _ hid, himg]
    exact snprintf_of_fits _ _ (by simp only [List.length_append, hl3]; omega)
  · simp only [tile_path, thumbnail_template, fmt_s_ptr, column_bytes]
    rw [fmt_s_of_no_nul _ himg0, fmt_s_of_no_nul _ hid, himg]
    exact snprintf_of_fits _ _ (by simp only [List.length_append, hl1]; omega)
  · simp only [thumb_path, thumbnail_template, fmt_s_ptr, column_bytes]
    rw [fmt_s_of_no_nul _ himg0, fmt_s_of_no_nul _ hid, himg]
    exact snprintf_of_fits _ _ (by simp only [List.length_append, hl2]; omega)

/-! ## The rollback-journal wait -/

theorem usleepCalls_append (t u : List Effect) :
    usleepCalls (t ++ u) = usleepCalls t + usleepCalls u := by
  induction t with
  | nil => simp [usleepCalls]
  | cons e t ih =>
    cases e <;> simp [usleepCalls, ih, Nat.add_right_comm]

theorem accessCalls_append (t u : List Effect) :
    accessCalls (t ++ u) = accessCalls t + accessCalls u := by
  induction t with
  | nil => simp [accessCalls]
  | cons e t ih =>
    cases e <;> simp [accessCalls, ih, Nat.add_right_comm]

/-- When every probe finds the journal, the loop entered with `count` sleeps
until `count` has passed 30: `31 - count` times. -/
theorem journal_loop_never_removed (cfg : Config) (w : World)
    (hw : ∀ k, w.access k (cfg.KOBO_DB_PATH ++ cstr "-journal") = true) (m : Nat) :
    ∀ n count, 31 - count = m + 1 →
      usleepCalls (journal_loop cfg w n count) = m + 1
        ∧ accessCalls (journal_loop cfg w n count) = m + 1 := by
  induction m with
  | zero =>
    intro n count hc
    have h30 : count + 1 > 30 := by omega
    rw [journal_loop]
    simp [hw, h30, usleepCalls, accessCalls]
  | succ m ih =>
    intro n count hc
    have h30 : ¬ count + 1 > 30 := by omega
    have := ih (n + 1) (count + 1) (by omega)
    rw [journal_loop]
    simp [hw, h30, usleepCalls, accessCalls, this]

/-- When the journal is found by `j` consecutive probes (`count + j ≤ 30`)
and is gone at the next one, the loop sleeps `j` times and stops there. -/
theorem journal_loop_removed (cfg : Config) (w : World) (j : Nat) :
    ∀ n count, count + j ≤ 30 →
      (∀ k, k < j → w.access (n + k) (cfg.KOBO_DB_PATH ++ cstr "-journal") = true) →
      w.access (n + j) (cfg.KOBO_DB_PATH ++ cstr "-journal") = false →
      usleepCalls (journal_loop cfg w n count) = j
        ∧ accessCalls (journal_loop cfg w n count) = j + 1 := by
  induction j with
  | zero =>
    intro n count _ _ hgone
    rw [journal_loop]
    simp at hgone
    simp [hgone, usleepCalls, accessCalls]
  | succ j ih =>
    intro n count hc hthere hgone
    have h0 : w.access n (cfg.KOBO_DB_PATH ++ cstr "-journal") = true := by
      simpa using hthere 0 (by omega)
    have h30 : ¬ count + 1 > 30 := by omega
    have := ih (n + 1) (count + 1) (by omega)
      (fun k hk => by
        have := hthere (k + 1) (by omega)
        rwa [show n + (k + 1) = n + 1 + k by omega] at this)
      (by rwa [show n + (j + 1) = n + 1 + j by omega] at hgone)
    rw [journal_loop]
    simp [h0, h30, usleepCalls, accessCalls, this]

/-- C10 (the code at the failing input): with the row found processed and a
rollback journal that is never removed, `is_target_processed(0, 1)` sleeps
31 times 250 ms (7.75 s) before it goes on, after 34 calls of `access`
(3 thumbnails and 31 probes of the journal), not 30 times. -/
theorem journal_never_removed_waits_31 (cfg : Config) (image_id : List Byte) :
    (is_target_processed cfg (journal_stuck_world image_id) 0 1).1 = 1
      ∧ usleepCalls (is_target_processed cfg (journal_stuck_world image_id) 0 1).2 = 31
      ∧ accessCalls (is_target_processed cfg (journal_stuck_world image_id) 0 1).2 = 34 := by
  have hj := journal_loop_never_removed cfg (journal_stuck_world image_id)
    (fun _ => rfl) 30 3 0 (by omega)
  have h1 : row_check (journal_stuck_world image_id) = 1 := rfl
  have h2 : thumbnails_check cfg (journal_stuck_world image_id)
      = (1, [Effect.sql Sql.selectImageID, Effect.access (ss_path cfg (some image_id)),
          Effect.access (tile_path cfg (some image_id)),
          Effect.access (thumb_path cfg (some image_id))]) := rfl
  unfold is_target_processed
  simp only [h1, h2]
  simp [usleepCalls_append, accessCalls_append, usleepCalls, accessCalls, hj]

/-! ## Traces of the oracle carry no launch -/

theorem serialised_append (t u : List Effect) :
    ∀ busy, serialised busy (t ++ u) = (serialised busy t && serialised (busyAfter busy t) u) := by
  induction t with
  | nil => intro busy; simp [serialised, busyAfter]
  | cons e t ih =>
    intro busy
    cases e <;> simp [serialised, busyAfter, ih, Bool.and_assoc]

theorem busyAfter_append (t u : List Effect) :
    ∀ busy, busyAfter busy (t ++ u) = busyAfter (busyAfter busy t) u := by
  induction t with
  | nil => intro busy; simp [busyAfter]
  | cons e t ih =>
    intro busy
    cases e <;> simp [busyAfter, ih]

theorem serialised_of_quiet (t : List Effect) (ht : t.all Effect.isQuiet = true) :
    ∀ busy, serialised busy t = true ∧ busyAfter busy t = busy := by
  induction t with
  | nil => intro busy; simp [serialised, busyAfter]
  | cons e t ih =>
    intro busy
    simp only [List.all_cons, Bool.and_eq_true] at ht
    have h := ih ht.2 busy
    have he := ht.1
    cases e <;> simp_all [serialised, busyAfter, Effect.isQuiet]

theorem journal_loop_quiet (cfg : Config) (w : World) (m : Nat) :
    ∀ n count, 31 - count = m → (journal_loop cfg w n count).all Effect.isQuiet = true := by
  induction m with
  | zero =>
    intro n count hc
    have h30 : count + 1 > 30 := by omega
    rw [journal_loop]
    cases w.access n (cfg.KOBO_DB_PATH ++ cstr "-journal") <;> simp [h30, Effect.isQuiet]
  | succ m ih =>
    intro n count hc
    have := ih (n + 1) (count + 1) (by omega)
    rw [journal_loop]
    cases w.access n (cfg.KOBO_DB_PATH ++ cstr "-journal") <;>
      by_cases h30 : count + 1 > 30 <;> simp [h30, Effect.isQuiet, this]

theorem thumbnails_check_quiet (cfg : Config) (w : World) :
    (thumbnails_check cfg w).2.all Effect.isQuiet = true := by
  unfold thumbnails_check
  cases w.image_step with
  | none => simp [Effect.isQuiet]
  | some image_id =>
    by_cases h3 : thumbnails_num cfg w image_id ≥ 3 <;> simp [h3, Effect.isQuiet]

theorem is_target_processed_quiet (cfg : Config) (w : World) (update wait_for_db : Int) :
    (is_target_processed cfg w update wait_for_db).2.all Effect.isQuiet = true := by
  have hj := fun n => journal_loop_quiet cfg w 31 n 0 (by omega)
  have ht := thumbnails_check_quiet cfg w
  unfold is_target_processed
  simp only [List.all_append, Bool.and_eq_true]
  refine ⟨?_, by simp [Effect.isQuiet]⟩
  split_ifs <;>
    simp only [List.all_append, Bool.and_eq_true, hj, ht, and_true, true_and] <;>
    simp [Effect.isQuiet]

/-! ## At most one launch in flight -/

theorem spawn_ne_zero (f : ForkRet) : spawn f ≠ 0 := by
  unfold spawn
  split_ifs <;> exact f.inDaemon

theorem on_open_quiet (cfg : Config) (s : Watcher) (env : EventEnv) :
    (on_open cfg s env).2.all Effect.isQuiet = true
      ∧ (on_open cfg s env).1.last_spawned_pid = s.last_spawned_pid := by
  have hq := is_target_processed_quiet cfg env.open_world 0 0
  unfold on_open
  by_cases h0 : s.last_spawned_pid = 0
  · by_cases hr : (is_target_processed cfg env.open_world 0 0).1 = 0
    · simp only [h0, hr, if_true]
      exact ⟨hq, trivial⟩
    · simp only [h0, hr, if_true, if_false]
      exact ⟨hq, trivial⟩
  · simp [h0]

theorem on_close_step (cfg : Config) (s : Watcher) (env : EventEnv) :
    serialised s.busy (on_close cfg s env).2 = true
      ∧ busyAfter s.busy (on_close cfg s env).2 = (on_close cfg s env).1.busy := by
  have hq := serialised_of_quiet _ (is_target_processed_quiet cfg env.close_world 0 1)
  unfold on_close
  by_cases h0 : s.last_spawned_pid = 0
  · by_cases hp : s.pending_processing = 0
    · by_cases hr : (is_target_processed cfg env.close_world 0 1).1 ≠ 0
      · have hb : s.busy = false := by simp [Watcher.busy, h0]
        simp only [h0, hp, hr, if_true, ne_eq, not_false_eq_true, hb]
        simp [serialised_append, busyAfter_append, hq, serialised, busyAfter, Watcher.busy,
          spawn_ne_zero]
      · simp only [h0, hp, hr, if_true, if_false]
        exact hq s.busy
    · simp [h0, hp, serialised, busyAfter]
  · simp [h0, serialised, busyAfter]

theorem handle_event_step (cfg : Config) (s : Watcher) (d : Int) (ev : inotify_event)
    (env : EventEnv) :
    serialised s.busy (handle_event cfg s d ev env).effects = true
      ∧ busyAfter s.busy (handle_event cfg s d ev env).effects
          = (handle_event cfg s d ev env).watcher.busy := by
  have ho := on_open_quiet cfg s env
  have hoq := serialised_of_quiet _ ho.1 s.busy
  have hob : (on_open cfg s env).1.busy = s.busy := by simp [Watcher.busy, ho.2]
  have hc1 := on_close_step cfg (on_open cfg s env).1 env
  have hc2 := on_close_step cfg s env
  rw [hob] at hc1
  unfold handle_event
  by_cases hO : ev.mask &&& IN_OPEN ≠ 0 <;> by_cases hC : ev.mask &&& IN_CLOSE ≠ 0 <;>
    by_cases hQ : ev.mask &&& IN_Q_OVERFLOW ≠ 0 <;>
    simp [hO, hC, hQ, serialised_append, busyAfter_append, hoq, hc1, hc2, serialised, busyAfter,
      hob]

theorem reaper_step (waits : List Int) :
    ∀ s : Watcher, ∀ busy, serialised busy (reaper s waits).2 = true
      ∧ ((reaper s waits).2 = [] → (reaper s waits).1 = s)
      ∧ ((reaper s waits).2 ≠ [] →
          busyAfter busy (reaper s waits).2 = false ∧ (reaper s waits).1.last_spawned_pid = 0) := by
  induction waits with
  | nil => intro s busy; simp [reaper, serialised]
  | cons cpid rest ih =>
    intro s busy
    have h := ih { s with last_spawned_pid := 0 } false
    by_cases hc : cpid > 0
    · simp only [reaper, hc, if_true, serialised, busyAfter]
      refine ⟨h.1, by simp, fun _ => ?_⟩
      by_cases he : (reaper { s with last_spawned_pid := 0 } rest).2 = []
      · rw [he, h.2.1 he]
        simp [busyAfter]
      · exact h.2.2 he
    · simp [reaper, hc, serialised]

theorem reaper_busy_step (s : Watcher) (waits : List Int) :
    serialised s.busy (reaper s waits).2 = true
      ∧ busyAfter s.busy (reaper s waits).2 = (reaper s waits).1.busy := by
  have h := reaper_step waits s s.busy
  refine ⟨h.1, ?_⟩
  by_cases he : (reaper s waits).2 = []
  · rw [he, h.2.1 he]
    simp [busyAfter]
  · have := h.2.2 he
    rw [this.1]
    simp [Watcher.busy, this.2]

/-- Whatever the state it starts from, the daemon respects the launch
discipline on every sequence of events and signal deliveries. -/
theorem run_serialised (cfg : Config) (actions : List Action) :
    ∀ s : Watcher, serialised s.busy (run cfg s actions).2 = true := by
  induction actions with
  | nil => intro s; simp [run, serialised]
  | cons a rest ih =>
    intro s
    cases a with
    | event ev env =>
      have h := handle_event_step cfg s 0 ev env
      simp only [run, serialised_append, h.1, h.2, Bool.true_and]
      exact ih _
    | sigchld waits =>
      have h := reaper_busy_step s waits
      simp only [run, serialised_append, h.1, h.2, Bool.true_and]
      exact ih _

theorem reaped_between_forks (mid : List Effect) (b : Int) (post : List Effect) :
    serialised true (mid ++ Effect.fork b :: post) = true → ∃ cpid, Effect.reaped cpid ∈ mid := by
  induction mid with
  | nil => simp [serialised]
  | cons e mid ih =>
    intro h
    cases e with
    | reaped cpid => exact ⟨cpid, by simp⟩
    | fork ret => simp [serialised] at h
    | _ =>
      simp only [List.cons_append, serialised] at h
      obtain ⟨cpid, hc⟩ := ih h
      exact ⟨cpid, by simp [hc]⟩

/-- C2: at most one launch is in flight. Start with `last_spawned_pid = 0`
and let the daemon go through any sequence of inotify events and `SIGCHLD`
deliveries, whatever the oracle, `fork` and `waitpid` answer: between any
two `fork`s of the trace, the reaper has reaped a child and reset
`last_spawned_pid` to 0. -/
theorem at_most_one_launch_in_flight (cfg : Config) (pending : Int) (actions : List Action)
    (pre mid post : List Effect) (a b : Int)
    (htrace : (run cfg { last_spawned_pid := 0, pending_processing := pending } actions).2
      = pre ++ Effect.fork a :: (mid ++ Effect.fork b :: post)) :
    ∃ cpid, Effect.reaped cpid ∈ mid := by
  have h := run_serialised cfg actions { last_spawned_pid := 0, pending_processing := pending }
  rw [htrace, serialised_append] at h
  simp only [Bool.and_eq_true] at h
  have h2 := h.2
  simp only [serialised, Bool.and_eq_true] at h2
  exact reaped_between_forks mid b post h2.2

/-! ## Sample runs of the oracle -/

theorem ready_world_processed (cfg : Config) (update wait_for_db : Int) :
    (is_target_processed cfg ready_world update wait_for_db).1 = 1 := by
  rw [is_target_processed_fst]
  have h1 : row_check ready_world = 1 := rfl
  have h2 : (thumbnails_check cfg ready_world).1 = 1 := rfl
  simp [h1, h2]

theorem unindexed_world_unprocessed (cfg : Config) (update wait_for_db : Int) :
    (is_target_processed cfg unindexed_world update wait_for_db).1 = 0 := by
  rw [is_target_processed_fst]
  have h1 : row_check unindexed_world = 0 := rfl
  simp [h1]

/-- C2 (instance): a close event launches the child 1234, the reaper reaps
it, a second close event launches the child 1235; the reaped child stands
between the two `fork`s of the trace. -/
theorem at_most_one_launch_in_flight_witness :
    (run kobo_cfg { last_spawned_pid := 0, pending_processing := 0 }
        [Action.event close_event ready_env, Action.sigchld [1234, 0],
          Action.event close_event ready_env_again]).2
      = ((is_target_processed kobo_cfg ready_world 0 1).2 ++ [Effect.blockSigchld])
          ++ Effect.fork 1234 ::
            (([Effect.unblockSigchld, Effect.reaped 1234]
                ++ ((is_target_processed kobo_cfg ready_world 0 1).2 ++ [Effect.blockSigchld]))
              ++ Effect.fork 1235 :: [Effect.unblockSigchld])
    ∧ ∃ cpid, Effect.reaped cpid ∈
        [Effect.unblockSigchld, Effect.reaped 1234]
          ++ ((is_target_processed kobo_cfg ready_world 0 1).2 ++ [Effect.blockSigchld]) :=
  have htrace : (run kobo_cfg { last_spawned_pid := 0, pending_processing := 0 }
        [Action.event close_event ready_env, Action.sigchld [1234, 0],
          Action.event close_event ready_env_again]).2
      = ((is_target_processed kobo_cfg ready_world 0 1).2 ++ [Effect.blockSigchld])
          ++ Effect.fork 1234 ::
            (([Effect.unblockSigchld, Effect.reaped 1234]
                ++ ((is_target_processed kobo_cfg ready_world 0 1).2 ++ [Effect.blockSigchld]))
              ++ Effect.fork 1235 :: [Effect.unblockSigchld]) := by
    have hr := ready_world_processed kobo_cfg 0 1
    have hO : close_event.mask &&& IN_OPEN = 0 := by decide
    have hC : close_event.mask &&& IN_CLOSE ≠ 0 := by decide
    have hQ : close_event.mask &&& IN_Q_OVERFLOW = 0 := by decide
    simp [run, handle_event, on_close, reaper, hO, hC, hQ, ready_env, ready_env_again, hr, spawn]
  ⟨htrace, at_most_one_launch_in_flight kobo_cfg 0 _ _ _ _ 1234 1235 htrace⟩

/-! ## One close event -/

theorem fork_not_mem_of_quiet (t : List Effect) (ht : t.all Effect.isQuiet = true) (pid : Int) :
    Effect.fork pid ∉ t := by
  intro hmem
  have := List.all_eq_true.mp ht _ hmem
  simp [Effect.isQuiet] at this

/-- What `handle_event` does of an event without the `IN_OPEN` bit. -/
theorem handle_event_not_open (cfg : Config) (s : Watcher) (d : Int) (ev : inotify_event)
    (env : EventEnv) (hO : ev.mask &&& IN_OPEN = 0) :
    (handle_event cfg s d ev env).watcher
        = (if ev.mask &&& IN_CLOSE ≠ 0 then on_close cfg s env else (s, [])).1
      ∧ (handle_event cfg s d ev env).effects
        = (if ev.mask &&& IN_CLOSE ≠ 0 then on_close cfg s env else (s, [])).2
            ++ (if ev.mask &&& IN_Q_OVERFLOW ≠ 0 then [Effect.rmWatch] else []) := by
  unfold handle_event
  by_cases hQ : ev.mask &&& IN_Q_OVERFLOW ≠ 0 <;> simp [hO, hQ]

/-- What `handle_event` does of an event with the `IN_OPEN` bit and without
the `IN_CLOSE` bits. -/
theorem handle_event_open_only (cfg : Config) (s : Watcher) (d : Int) (ev : inotify_event)
    (env : EventEnv) (hO : ev.mask &&& IN_OPEN ≠ 0) (hC : ev.mask &&& IN_CLOSE = 0) :
    (handle_event cfg s d ev env).watcher = (on_open cfg s env).1
      ∧ (handle_event cfg s d ev env).effects
        = (on_open cfg s env).2
            ++ (if ev.mask &&& IN_Q_OVERFLOW ≠ 0 then [Effect.rmWatch] else []) := by
  unfold handle_event
  by_cases hQ : ev.mask &&& IN_Q_OVERFLOW ≠ 0 <;> simp [hO, hC, hQ]

/-- The `IN_CLOSE` branch, case by case. -/
theorem on_close_cases (cfg : Config) (s : Watcher) (env : EventEnv) :
    (s.last_spawned_pid = 0 ∧ s.pending_processing = 0
        ∧ (is_target_processed cfg env.close_world 0 1).1 ≠ 0
        ∧ on_close cfg s env
          = ({ s with last_spawned_pid := spawn env.fork_ret },
              (is_target_processed cfg env.close_world 0 1).2
                ++ [Effect.blockSigchld, Effect.fork env.fork_ret.pid, Effect.unblockSigchld]))
      ∨ (s.last_spawned_pid = 0 ∧ s.pending_processing = 0
        ∧ (is_target_processed cfg env.close_world 0 1).1 = 0
        ∧ on_close cfg s env = (s, (is_target_processed cfg env.close_world 0 1).2))
      ∨ ((s.last_spawned_pid ≠ 0 ∨ s.pending_processing ≠ 0) ∧ on_close cfg s env = (s, [])) := by
  unfold on_close
  by_cases h0 : s.last_spawned_pid = 0
  · by_cases hp : s.pending_processing = 0
    · by_cases hr : (is_target_processed cfg env.close_world 0 1).1 = 0
      · right; left
        simp [h0, hp, hr]
      · left
        simp [h0, hp, hr]
    · right; right
      simp [h0, hp]
  · right; right
    simp [h0]

/-- C5: handling one close event spawns the target program (calls `fork`)
exactly when no launch is in flight (`last_spawned_pid = 0`), the pending
flag is clear and `is_target_processed(0, 1)` reports processed, and then
`last_spawned_pid` takes the value `spawn` returns. With no launch in flight
and the flag clear, the oracle is run in that mode first; with a launch in
flight or the flag set, the database is not opened at all; and whenever no
spawn happens `last_spawned_pid` keeps its value. -/
theorem close_event_spawns_iff_ready (cfg : Config) (s : Watcher) (d : Int)
    (ev : inotify_event) (env : EventEnv)
    (hclose : ev.mask &&& IN_CLOSE ≠ 0) (hnotopen : ev.mask &&& IN_OPEN = 0) :
    ((∃ pid, Effect.fork pid ∈ (handle_event cfg s d ev env).effects) ↔
        (s.last_spawned_pid = 0 ∧ s.pending_processing = 0
          ∧ (is_target_processed cfg env.close_world 0 1).1 ≠ 0))
      ∧ ((s.last_spawned_pid = 0 ∧ s.pending_processing = 0
            ∧ (is_target_processed cfg env.close_world 0 1).1 ≠ 0) →
          (handle_event cfg s d ev env).watcher.last_spawned_pid = spawn env.fork_ret
            ∧ Effect.fork env.fork_ret.pid ∈ (handle_event cfg s d ev env).effects)
      ∧ ((s.last_spawned_pid = 0 ∧ s.pending_processing = 0) →
          (is_target_processed cfg env.close_world 0 1).2
            <+: (handle_event cfg s d ev env).effects)
      ∧ ((s.last_spawned_pid ≠ 0 ∨ s.pending_processing ≠ 0) →
          ∀ e ∈ (handle_event cfg s d ev env).effects, e.isDbOpen = false)
      ∧ (¬ (s.last_spawned_pid = 0 ∧ s.pending_processing = 0
            ∧ (is_target_processed cfg env.close_world 0 1).1 ≠ 0) →
          (handle_event cfg s d ev env).watcher.last_spawned_pid = s.last_spawned_pid) := by
  obtain ⟨hw, he⟩ := handle_event_not_open cfg s d ev env hnotopen
  simp only [hclose, if_true, ne_eq, not_false_eq_true] at hw he
  have hq := is_target_processed_quiet cfg env.close_world 0 1
  have hnf := fork_not_mem_of_quiet _ hq
  rw [hw, he]
  rcases on_close_cases cfg s env with ⟨h0, hp, hr, hc⟩ | ⟨h0, hp, hr, hc⟩ | ⟨hbusy, hc⟩
  · rw [hc]
    refine ⟨?_, ?_, ?_, ?_, ?_⟩
    · constructor
      · intro _
        exact ⟨h0, hp, hr⟩
      · intro _
        exact ⟨env.fork_ret.pid, by simp⟩
    · intro _
      exact ⟨rfl, by simp⟩
    · intro _
      simp only [List.append_assoc]
      exact List.prefix_append _ _
    · intro hb
      rcases hb with hb | hb
      · exact absurd h0 hb
      · exact absurd hp hb
    · intro hn
      exact absurd ⟨h0, hp, hr⟩ hn
  · rw [hc]
    refine ⟨?_, ?_, ?_, ?_, ?_⟩
    · constructor
      · rintro ⟨pid, hmem⟩
        exfalso
        simp only [List.mem_append] at hmem
        rcases hmem with hmem | hmem
        · exact hnf pid hmem
        · split_ifs at hmem <;> simp at hmem
      · rintro ⟨_, _, hne⟩
        exact absurd hr hne
    · rintro ⟨_, _, hne⟩
      exact absurd hr hne
    · intro _
      exact List.prefix_append _ _
    · intro hb
      rcases hb with hb | hb
      · exact absurd h0 hb
      · exact absurd hp hb
    · intro _
      rfl
  · rw [hc]
    refine ⟨?_, ?_, ?_, ?_, ?_⟩
    · constructor
      · rintro ⟨pid, hmem⟩
        exfalso
        split_ifs at hmem <;> simp at hmem
      · rintro ⟨h0, hp, _⟩
        rcases hbusy with hb | hb
        · exact absurd h0 hb
        · exact absurd hp hb
    · rintro ⟨h0, hp, _⟩
      rcases hbusy with hb | hb
      · exact absurd h0 hb
      · exact absurd hp hb
    · rintro ⟨h0, hp⟩
      rcases hbusy with hb | hb
      · exact absurd h0 hb
      · exact absurd hp hb
    · intro _ e hmem
      split_ifs at hmem <;> simp at hmem
      rw [hmem]
      rfl
    · intro _
      rfl

/-- C5 (instance): with no launch in flight, the flag clear and the target
processed, a close event forks. -/
theorem close_event_spawns_iff_ready_witness :
    (close_event.mask &&& IN_CLOSE ≠ 0 ∧ close_event.mask &&& IN_OPEN = 0)
      ∧ ∃ pid, Effect.fork pid ∈
          (handle_event kobo_cfg { last_spawned_pid := 0, pending_processing := 0 } 0
            close_event ready_env).effects :=
  ⟨⟨by decide, by decide⟩,
    (close_event_spawns_iff_ready kobo_cfg { last_spawned_pid := 0, pending_processing := 0 } 0
      close_event ready_env (by decide) (by decide)).1.mpr
      ⟨rfl, rfl, by
        have h : (is_target_processed kobo_cfg ready_env.close_world 0 1).1 = 1 :=
          ready_world_processed kobo_cfg 0 1
        rw [h]
        decide⟩⟩

/-! ## Open and close events in sequence -/

/-- An open event met with no launch in flight and an unprocessed target
sets the flag, whatever the other bits of its mask, and forks nothing. -/
theorem handle_event_open_unprocessed (cfg : Config) (pending : Int) (d : Int)
    (ev : inotify_event) (env : EventEnv) (hopen : ev.mask &&& IN_OPEN ≠ 0)
    (hnot : (is_target_processed cfg env.open_world 0 0).1 = 0) :
    (handle_event cfg { last_spawned_pid := 0, pending_processing := pending } d ev env).watcher
        = { last_spawned_pid := 0, pending_processing := 1 }
      ∧ ∀ pid, Effect.fork pid ∉
          (handle_event cfg { last_spawned_pid := 0, pending_processing := pending } d ev
            env).effects := by
  have hq := fork_not_mem_of_quiet _ (is_target_processed_quiet cfg env.open_world 0 0)
  unfold handle_event
  by_cases hC : ev.mask &&& IN_CLOSE ≠ 0 <;> by_cases hQ : ev.mask &&& IN_Q_OVERFLOW ≠ 0 <;>
    simp [hopen, hC, hQ, on_open, on_close, hnot, hq]

/-- A close event met with the flag set changes nothing and calls neither
the oracle nor `fork`. -/
theorem handle_event_close_pending (cfg : Config) (s : Watcher) (d : Int)
    (ev : inotify_event) (env : EventEnv) (hnotopen : ev.mask &&& IN_OPEN = 0)
    (hp : s.pending_processing ≠ 0) :
    (handle_event cfg s d ev env).watcher = s
      ∧ (∀ pid, Effect.fork pid ∉ (handle_event cfg s d ev env).effects)
      ∧ ∀ e ∈ (handle_event cfg s d ev env).effects, e.isDbOpen = false := by
  unfold handle_event
  by_cases hC : ev.mask &&& IN_CLOSE ≠ 0 <;> by_cases hQ : ev.mask &&& IN_Q_OVERFLOW ≠ 0 <;>
    by_cases h0 : s.last_spawned_pid = 0 <;>
    simp [hnotopen, hC, hQ, on_close, hp, h0, Effect.isDbOpen]

/-- C6: with no launch in flight, an open event for which
`is_target_processed(0, 0)` reports not processed, followed at once by a
close event, forks nothing, whatever the oracle would answer at close time
(it is not even asked); `last_spawned_pid` is still 0 and the pending flag
is set. -/
theorem open_unprocessed_then_close_does_not_spawn (cfg : Config) (pending : Int)
    (ev_open ev_close : inotify_event) (env_open env_close : EventEnv)
    (hopen : ev_open.mask &&& IN_OPEN ≠ 0)
    (hnot : (is_target_processed cfg env_open.open_world 0 0).1 = 0)
    (hclose : ev_close.mask &&& IN_CLOSE ≠ 0) (hnotopen : ev_close.mask &&& IN_OPEN = 0) :
    (∀ pid, Effect.fork pid ∉
        (run cfg { last_spawned_pid := 0, pending_processing := pending }
          [Action.event ev_open env_open, Action.event ev_close env_close]).2)
      ∧ (run cfg { last_spawned_pid := 0, pending_processing := pending }
          [Action.event ev_open env_open, Action.event ev_close env_close]).1
        = { last_spawned_pid := 0, pending_processing := 1 }
      ∧ ∀ e ∈ (handle_event cfg
            (handle_event cfg { last_spawned_pid := 0, pending_processing := pending } 0
              ev_open env_open).watcher 0 ev_close env_close).effects,
          e.isDbOpen = false := by
  obtain ⟨hw, hf⟩ := handle_event_open_unprocessed cfg pending 0 ev_open env_open hopen hnot
  obtain ⟨hw2, hf2, hd2⟩ := handle_event_close_pending cfg
    { last_spawned_pid := 0, pending_processing := 1 } 0 ev_close env_close hnotopen (by decide)
  have _ := hclose
  refine ⟨?_, ?_, ?_⟩
  · intro pid hmem
    simp only [run, List.append_nil, List.mem_append, hw] at hmem
    rcases hmem with hmem | hmem
    · exact hf pid hmem
    · exact hf2 pid hmem
  · simp only [run, hw, hw2]
  · rw [hw]
    exact hd2

/-- C6 (instance): an open event on an unindexed target, then a close event
at which the target would be found processed. -/
theorem open_unprocessed_then_close_does_not_spawn_witness :
    (open_event.mask &&& IN_OPEN ≠ 0
        ∧ (is_target_processed kobo_cfg unindexed_env.open_world 0 0).1 = 0
        ∧ close_event.mask &&& IN_CLOSE ≠ 0 ∧ close_event.mask &&& IN_OPEN = 0)
      ∧ ∀ pid, Effect.fork pid ∉
        (run kobo_cfg { last_spawned_pid := 0, pending_processing := 0 }
          [Action.event open_event unindexed_env, Action.event close_event ready_env]).2 :=
  ⟨⟨by decide, unindexed_world_unprocessed kobo_cfg 0 0, by decide, by decide⟩,
    (open_unprocessed_then_close_does_not_spawn kobo_cfg 0 open_event close_event unindexed_env
      ready_env (by decide) (unindexed_world_unprocessed kobo_cfg 0 0) (by decide)
      (by decide)).1⟩

/-- An open event met with no launch in flight and a processed target
clears the flag and forks nothing, when its mask has no `IN_CLOSE` bit. -/
theorem handle_event_open_processed (cfg : Config) (pending : Int) (d : Int)
    (ev : inotify_event) (env : EventEnv) (hopen : ev.mask &&& IN_OPEN ≠ 0)
    (hnotclose : ev.mask &&& IN_CLOSE = 0)
    (hyes : (is_target_processed cfg env.open_world 0 0).1 ≠ 0) :
    (handle_event cfg { last_spawned_pid := 0, pending_processing := pending } d ev env).watcher
        = { last_spawned_pid := 0, pending_processing := 0 }
      ∧ ∀ pid, Effect.fork pid ∉
          (handle_event cfg { last_spawned_pid := 0, pending_processing := pending } d ev
            env).effects := by
  have hq := fork_not_mem_of_quiet _ (is_target_processed_quiet cfg env.open_world 0 0)
  unfold handle_event
  by_cases hQ : ev.mask &&& IN_Q_OVERFLOW ≠ 0 <;>
    simp [hopen, hnotclose, hQ, on_open, hyes, hq]

/-- With no launch in flight and the flag clear, a close event forks exactly
when `is_target_processed(0, 1)` reports processed. -/
theorem handle_event_close_clear (cfg : Config) (d : Int) (ev : inotify_event) (env : EventEnv)
    (hclose : ev.mask &&& IN_CLOSE ≠ 0) (hnotopen : ev.mask &&& IN_OPEN = 0) :
    (∃ pid, Effect.fork pid ∈
        (handle_event cfg { last_spawned_pid := 0, pending_processing := 0 } d ev env).effects)
      ↔ (is_target_processed cfg env.close_world 0 1).1 ≠ 0 := by
  have hq := fork_not_mem_of_quiet _ (is_target_processed_quiet cfg env.close_world 0 1)
  unfold handle_event
  by_cases hQ : ev.mask &&& IN_Q_OVERFLOW ≠ 0 <;>
    by_cases hr : (is_target_processed cfg env.close_world 0 1).1 = 0 <;>
    simp [hnotopen, hclose, hQ, on_close, hr, hq]

/-- C7 (as claimed, refuted): an open event finding the target unprocessed,
an open event finding it processed, then a close event at which the oracle
reports processed: no launch is in flight throughout the two open events,
the flag is clear again after them, and the close event forks. -/
theorem open_open_close_spawns :
    (run kobo_cfg { last_spawned_pid := 0, pending_processing := 0 }
        [Action.event open_event unindexed_env, Action.event open_event ready_env]).1
      = { last_spawned_pid := 0, pending_processing := 0 }
    ∧ Effect.fork 1234 ∈
        (handle_event kobo_cfg
          (run kobo_cfg { last_spawned_pid := 0, pending_processing := 0 }
            [Action.event open_event unindexed_env, Action.event open_event ready_env]).1
          0 close_event ready_env).effects := by
  have h1 := handle_event_open_unprocessed kobo_cfg 0 0 open_event unindexed_env (by decide)
    (unindexed_world_unprocessed kobo_cfg 0 0)
  have hr0 : (is_target_processed kobo_cfg ready_env.open_world 0 0).1 = 1 :=
    ready_world_processed kobo_cfg 0 0
  have h2 := handle_event_open_processed kobo_cfg 1 0 open_event ready_env (by decide)
    (by decide) (by rw [hr0]; decide)
  have hs : (run kobo_cfg { last_spawned_pid := 0, pending_processing := 0 }
        [Action.event open_event unindexed_env, Action.event open_event ready_env]).1
      = { last_spawned_pid := 0, pending_processing := 0 } := by
    simp only [run, h1.1, h2.1]
  refine ⟨hs, ?_⟩
  rw [hs]
  have hO : close_event.mask &&& IN_OPEN = 0 := by decide
  have hC : close_event.mask &&& IN_CLOSE ≠ 0 := by decide
  simp [handle_event, on_close, hO, hC, ready_world_processed kobo_cfg 0 1, ready_env]

/-- C7 (amended): after an open event finding the target unprocessed and an
open event finding it processed (which clears the flag), with no launch in
flight, the close event forks if and only if `is_target_processed(0, 1)`
reports processed at close time; the two open events fork nothing. -/
theorem open_open_close_spawns_iff (cfg : Config) (pending : Int)
    (ev1 ev2 ev3 : inotify_event) (env1 env2 env3 : EventEnv)
    (hopen1 : ev1.mask &&& IN_OPEN ≠ 0)
    (hnot1 : (is_target_processed cfg env1.open_world 0 0).1 = 0)
    (hopen2 : ev2.mask &&& IN_OPEN ≠ 0) (hnotclose2 : ev2.mask &&& IN_CLOSE = 0)
    (hyes2 : (is_target_processed cfg env2.open_world 0 0).1 ≠ 0)
    (hclose3 : ev3.mask &&& IN_CLOSE ≠ 0) (hnotopen3 : ev3.mask &&& IN_OPEN = 0) :
    (run cfg { last_spawned_pid := 0, pending_processing := pending }
        [Action.event ev1 env1, Action.event ev2 env2]).1
      = { last_spawned_pid := 0, pending_processing := 0 }
    ∧ (∀ pid, Effect.fork pid ∉
        (run cfg { last_spawned_pid := 0, pending_processing := pending }
          [Action.event ev1 env1, Action.event ev2 env2]).2)
    ∧ ((∃ pid, Effect.fork pid ∈
          (handle_event cfg
            (run cfg { last_spawned_pid := 0, pending_processing := pending }
              [Action.event ev1 env1, Action.event ev2 env2]).1
            0 ev3 env3).effects)
        ↔ (is_target_processed cfg env3.close_world 0 1).1 ≠ 0) := by
  have h1 := handle_event_open_unprocessed cfg pending 0 ev1 env1 hopen1 hnot1
  have h2 := handle_event_open_processed cfg 1 0 ev2 env2 hopen2 hnotclose2 hyes2
  have hs : (run cfg { last_spawned_pid := 0, pending_processing := pending }
        [Action.event ev1 env1, Action.event ev2 env2]).1
      = { last_spawned_pid := 0, pending_processing := 0 } := by
    simp only [run, h1.1, h2.1]
  refine ⟨hs, ?_, ?_⟩
  · intro pid hmem
    simp only [run, List.append_nil, List.mem_append, h1.1] at hmem
    rcases hmem with hmem | hmem
    · exact h1.2 pid hmem
    · exact h2.2 pid hmem
  · rw [hs]
    exact handle_event_close_clear cfg 0 ev3 env3 hclose3 hnotopen3

/-- C7 (amended, instance): at the close event of the sample sequence the
oracle reports processed, and the close event forks. -/
theorem open_open_close_spawns_iff_witness :
    (open_event.mask &&& IN_OPEN ≠ 0
        ∧ (is_target_processed kobo_cfg unindexed_env.open_world 0 0).1 = 0
        ∧ open_event.mask &&& IN_CLOSE = 0
        ∧ (is_target_processed kobo_cfg ready_env.open_world 0 0).1 ≠ 0
        ∧ close_event.mask &&& IN_CLOSE ≠ 0 ∧ close_event.mask &&& IN_OPEN = 0)
      ∧ ((∃ pid, Effect.fork pid ∈
          (handle_event kobo_cfg
            (run kobo_cfg { last_spawned_pid := 0, pending_processing := 0 }
              [Action.event open_event unindexed_env, Action.event open_event ready_env]).1
            0 close_event ready_env).effects)
        ↔ (is_target_processed kobo_cfg ready_env.close_world 0 1).1 ≠ 0) :=
  have hyes : (is_target_processed kobo_cfg ready_env.open_world 0 0).1 ≠ 0 := by
    have h : (is_target_processed kobo_cfg ready_env.open_world 0 0).1 = 1 :=
      ready_world_processed kobo_cfg 0 0
    rw [h]
    decide
  ⟨⟨by decide, unindexed_world_unprocessed kobo_cfg 0 0, by decide, hyes, by decide, by decide⟩,
    (open_open_close_spawns_iff kobo_cfg 0 open_event open_event close_event unindexed_env
      ready_env ready_env (by decide) (unindexed_world_unprocessed kobo_cfg 0 0) (by decide)
      (by decide) hyes (by decide) (by decide)).2.2⟩

/-! ## The pending flag across a close event -/

/-- C8 (as claimed, refuted): handle a close event with the flag set and no
launch in flight, the target being processed by then: the flag is still set
afterwards. -/
theorem close_event_leaves_flag_set :
    (handle_event kobo_cfg { last_spawned_pid := 0, pending_processing := 1 } 0 close_event
        ready_env).watcher.pending_processing = 1
      ∧ ¬ (handle_event kobo_cfg { last_spawned_pid := 0, pending_processing := 1 } 0 close_event
        ready_env).watcher.pending_processing = 0 := by
  have h := handle_event_close_pending kobo_cfg { last_spawned_pid := 0, pending_processing := 1 }
    0 close_event ready_env (by decide) (by decide)
  rw [h.1]
  decide

/-- C8 (amended): handling a close event never changes the pending flag:
afterwards it has the value it had before (it is clear exactly when it was
clear before the event). -/
theorem close_event_keeps_flag (cfg : Config) (s : Watcher) (d : Int) (ev : inotify_event)
    (env : EventEnv) (hclose : ev.mask &&& IN_CLOSE ≠ 0) (hnotopen : ev.mask &&& IN_OPEN = 0) :
    (handle_event cfg s d ev env).watcher.pending_processing = s.pending_processing := by
  obtain ⟨hw, _⟩ := handle_event_not_open cfg s d ev env hnotopen
  simp only [hclose, if_true, ne_eq, not_false_eq_true] at hw
  rw [hw]
  rcases on_close_cases cfg s env with ⟨_, _, _, hc⟩ | ⟨_, _, _, hc⟩ | ⟨_, hc⟩ <;> rw [hc]

/-- C8 (amended, instance): a set flag stays set across the sample close
event. -/
theorem close_event_keeps_flag_witness :
    (close_event.mask &&& IN_CLOSE ≠ 0 ∧ close_event.mask &&& IN_OPEN = 0)
      ∧ (handle_event kobo_cfg { last_spawned_pid := 0, pending_processing := 1 } 0 close_event
          ready_env).watcher.pending_processing = 1 :=
  ⟨⟨by decide, by decide⟩,
    close_event_keeps_flag kobo_cfg { last_spawned_pid := 0, pending_processing := 1 } 0
      close_event ready_env (by decide) (by decide)⟩

/-! ## The mount wait -/

/-- Polls that succeed and whose changes all miss the target only move the
counter, as long as it stays within 15. -/
theorem wait_loop_skip (cfg : Config) (pre : List PollResult) :
    ∀ (c : Int) (tail : List PollResult), (∀ q ∈ pre, q.rv ≥ 0) →
      (∀ q ∈ pre, q.revents &&& POLLERR ≠ 0 → is_target_mounted cfg q.mtab = 0) →
      c + changesIn pre ≤ 15 →
      wait_loop cfg c (pre ++ tail) = wait_loop cfg (c + changesIn pre) tail := by
  induction pre with
  | nil => intro c tail _ _ _; simp [changesIn]
  | cons q pre ih =>
    intro c tail hrv hmiss hc
    have hq : q.rv ≥ 0 := hrv q (by simp)
    have hrv2 : ∀ r ∈ pre, r.rv ≥ 0 := fun r hr => hrv r (by simp [hr])
    have hmiss2 : ∀ r ∈ pre, r.revents &&& POLLERR ≠ 0 → is_target_mounted cfg r.mtab = 0 :=
      fun r hr => hmiss r (by simp [hr])
    by_cases hch : q.revents &&& POLLERR ≠ 0
    · have hm : is_target_mounted cfg q.mtab = 0 := hmiss q (by simp) hch
      have hn : changesIn (q :: pre) = changesIn pre + 1 := by simp [changesIn, hch]
      rw [hn] at hc ⊢
      have h15 : ¬ c + 1 > 15 := by omega
      have hstep : wait_loop cfg c (q :: pre ++ tail) = wait_loop cfg (c + 1) (pre ++ tail) := by
        simp [wait_loop, hq, hch, hm, h15]
      rw [hstep, ih (c + 1) tail hrv2 hmiss2 (by omega)]
      congr 1
      omega
    · have hn : changesIn (q :: pre) = changesIn pre := by simp [changesIn, hch]
      rw [hn] at hc ⊢
      have h15 : ¬ c > 15 := by omega
      have hstep : wait_loop cfg c (q :: pre ++ tail) = wait_loop cfg c (pre ++ tail) := by
        simp [wait_loop, hq, hch, h15]
      rw [hstep]
      exact ih c tail hrv2 hmiss2 hc

/-- C9: let the wait see polls that succeed and report at most 15 changes
of the mount table, none of which finds the target mountpoint: the process
is not terminated and the daemon polls on. If the next change finds the
target (it is the k-th change, k ≤ 16, with no earlier match), the wait
returns. If it does not and it is the 16th change, the process exits
there; if it is an earlier one, the daemon polls on. -/
theorem mount_wait_gives_up_at_16th_change (cfg : Config) (pre : List PollResult)
    (p : PollResult) (rest : List PollResult)
    (hrv : ∀ q ∈ pre, q.rv ≥ 0)
    (hmiss : ∀ q ∈ pre, q.revents &&& POLLERR ≠ 0 → is_target_mounted cfg q.mtab = 0)
    (hcount : changesIn pre ≤ 15) (hp : p.rv ≥ 0) (hchange : p.revents &&& POLLERR ≠ 0) :
    wait_for_target_mountpoint cfg pre = WaitOutcome.polling (changesIn pre)
      ∧ (is_target_mounted cfg p.mtab ≠ 0 →
          wait_for_target_mountpoint cfg (pre ++ p :: rest) = WaitOutcome.returned)
      ∧ (is_target_mounted cfg p.mtab = 0 → changesIn pre = 15 →
          wait_for_target_mountpoint cfg (pre ++ p :: rest) = WaitOutcome.exited)
      ∧ (is_target_mounted cfg p.mtab = 0 → changesIn pre < 15 →
          wait_for_target_mountpoint cfg (pre ++ [p])
            = WaitOutcome.polling (changesIn pre + 1)) := by
  have hskip := fun tail => wait_loop_skip cfg pre 0 tail hrv hmiss (by omega)
  simp only [zero_add] at hskip
  unfold wait_for_target_mountpoint
  refine ⟨?_, ?_, ?_, ?_⟩
  · have := hskip []
    simpa [wait_loop] using this
  · intro hm
    rw [hskip]
    simp [wait_loop, hp, hchange, hm]
  · intro hm h15
    rw [hskip]
    simp [wait_loop, hp, hchange, hm, h15]
  · intro hm h15
    rw [hskip]
    have hlt : ¬ ((changesIn pre : Int) + 1 > 15) := by omega
    simp [wait_loop, hp, hchange, hm, hlt]

/-- C9 (instance): after 15 changes that miss the target, with timeouts in
between, the daemon still polls; a 16th change that misses it ends the
process, a 16th change that finds it lets the wait return. -/
theorem mount_wait_gives_up_at_16th_change_witness :
    ((∀ q ∈ poll_timeout :: List.replicate 15 change_without_target, q.rv ≥ 0)
        ∧ (∀ q ∈ poll_timeout :: List.replicate 15 change_without_target,
            q.revents &&& POLLERR ≠ 0 → is_target_mounted kobo_cfg q.mtab = 0)
        ∧ changesIn (poll_timeout :: List.replicate 15 change_without_target) ≤ 15
        ∧ change_without_target.rv ≥ 0 ∧ change_without_target.revents &&& POLLERR ≠ 0)
      ∧ wait_for_target_mountpoint kobo_cfg
          (poll_timeout :: List.replicate 15 change_without_target)
        = WaitOutcome.polling 15
      ∧ wait_for_target_mountpoint kobo_cfg
          ((poll_timeout :: List.replicate 15 change_without_target)
            ++ change_without_target :: [poll_timeout])
        = WaitOutcome.exited
      ∧ wait_for_target_mountpoint kobo_cfg
          ((poll_timeout :: List.replicate 15 change_without_target)
            ++ change_with_target :: [poll_timeout])
        = WaitOutcome.returned :=
  have hrv : ∀ q ∈ poll_timeout :: List.replicate 15 change_without_target, q.rv ≥ 0 := by
    decide
  have hmiss : ∀ q ∈ poll_timeout :: List.replicate 15 change_without_target,
      q.revents &&& POLLERR ≠ 0 → is_target_mounted kobo_cfg q.mtab = 0 := by
    decide
  have hcount : changesIn (poll_timeout :: List.replicate 15 change_without_target) ≤ 15 := by
    decide
  have hmiss16 : is_target_mounted kobo_cfg change_without_target.mtab = 0 := by decide
  have hfound : is_target_mounted kobo_cfg change_with_target.mtab ≠ 0 := by decide
  ⟨⟨hrv, hmiss, hcount, by decide, by decide⟩,
    (mount_wait_gives_up_at_16th_change kobo_cfg _ change_without_target [poll_timeout] hrv hmiss
      hcount (by decide) (by decide)).1,
    (mount_wait_gives_up_at_16th_change kobo_cfg _ change_without_target [poll_timeout] hrv hmiss
      hcount (by decide) (by decide)).2.2.1 hmiss16 (by decide),
    (mount_wait_gives_up_at_16th_change kobo_cfg _ change_with_target [poll_timeout] hrv hmiss
      hcount (by decide) (by decide)).2.1 hfound⟩

/-! ## A failed spawn -/

theorem spawn_eq_pid (f : ForkRet) : spawn f = f.pid := by
  unfold spawn
  split_ifs <;> rfl

/-- With no launch in flight, the flag clear and the target processed, a
close event stores the value of `fork()` in `last_spawned_pid`. -/
theorem handle_event_close_ready (cfg : Config) (d : Int) (ev : inotify_event) (env : EventEnv)
    (hclose : ev.mask &&& IN_CLOSE ≠ 0) (hnotopen : ev.mask &&& IN_OPEN = 0)
    (hyes : (is_target_processed cfg env.close_world 0 1).1 ≠ 0) :
    (handle_event cfg { last_spawned_pid := 0, pending_processing := 0 } d ev env).watcher
      = { last_spawned_pid := env.fork_ret.pid, pending_processing := 0 } := by
  unfold handle_event
  by_cases hQ : ev.mask &&& IN_Q_OVERFLOW ≠ 0 <;>
    simp [hnotopen, hclose, hQ, on_close, hyes, spawn_eq_pid]

/-- A close event met with a non-zero `last_spawned_pid` changes nothing and
forks nothing. -/
theorem handle_event_close_busy (cfg : Config) (s : Watcher) (d : Int) (ev : inotify_event)
    (env : EventEnv) (hnotopen : ev.mask &&& IN_OPEN = 0) (hbusy : s.last_spawned_pid ≠ 0) :
    (handle_event cfg s d ev env).watcher = s
      ∧ ∀ pid, Effect.fork pid ∉ (handle_event cfg s d ev env).effects := by
  unfold handle_event
  by_cases hC : ev.mask &&& IN_CLOSE ≠ 0 <;> by_cases hQ : ev.mask &&& IN_Q_OVERFLOW ≠ 0 <;>
    simp [hnotopen, hC, hQ, on_close, hbusy]

/-- C11 (the code at the failing input): a close event triggers `spawn` and
`fork` fails with -1. Afterwards `last_spawned_pid` is -1, not 0; a `SIGCHLD`
handler run that finds no child to reap leaves it so; and a later close
event, the target still processed, forks nothing: the watcher believes a
launch is in flight. On a successful spawn `last_spawned_pid` is the pid of
the child (1234). -/
theorem failed_spawn_leaves_launch_in_flight :
    (handle_event kobo_cfg { last_spawned_pid := 0, pending_processing := 0 } 0 close_event
        failed_fork_env).watcher.last_spawned_pid = -1
      ∧ (reaper (handle_event kobo_cfg { last_spawned_pid := 0, pending_processing := 0 } 0
          close_event failed_fork_env).watcher [-1]).1.last_spawned_pid = -1
      ∧ (∀ pid, Effect.fork pid ∉
          (handle_event kobo_cfg
            (handle_event kobo_cfg { last_spawned_pid := 0, pending_processing := 0 } 0
              close_event failed_fork_env).watcher
            0 close_event ready_env).effects)
      ∧ (handle_event kobo_cfg { last_spawned_pid := 0, pending_processing := 0 } 0 close_event
          ready_env).watcher.last_spawned_pid = 1234 := by
  have hyes : (is_target_processed kobo_cfg ready_world 0 1).1 ≠ 0 := by
    rw [ready_world_processed kobo_cfg 0 1]
    decide
  have hfail := handle_event_close_ready kobo_cfg 0 close_event failed_fork_env (by decide)
    (by decide) hyes
  have hgood := handle_event_close_ready kobo_cfg 0 close_event ready_env (by decide)
    (by decide) hyes
  rw [hfail, hgood]
  refine ⟨rfl, ?_, ?_, rfl⟩
  · simp [reaper, failed_fork_env]
  · exact (handle_event_close_busy kobo_cfg _ 0 close_event ready_env (by decide)
      (by simp [failed_fork_env])).2

/-! ## The register width of `qhash` -/

theorem mod_and_mask (a m : Nat) (hm : m < 2 ^ 32) : (a % 2 ^ 32) &&& m = a &&& m := by
  rw [← Nat.and_pow_two_sub_one_eq_mod a 32, Nat.and_assoc]
  congr 1
  rw [Nat.and_comm, Nat.and_pow_two_sub_one_eq_mod]
  exact Nat.mod_eq_of_lt hm

/-- One round gives the same value with and without the reduction modulo
`2^32`, whatever the register holds. -/
theorem qhash_body_eq_unbounded_round (h : Nat) (byte : Byte) :
    qhash_body h byte = unbounded_round h byte := by
  simp only [qhash_body, unbounded_round, Nat.mod_add_mod]
  rw [Nat.and_xor_distrib_right, Nat.and_xor_distrib_right,
    mod_and_mask _ 0xf0000000 (by norm_num), mod_and_mask _ 0x0fffffff (by norm_num)]

theorem qhash_body_lt (h : Nat) (byte : Byte) : qhash_body h byte < 2 ^ 28 := by
  unfold qhash_body
  exact Nat.and_lt_two_pow _ (by norm_num)

theorem foldl_qhash_body_lt (bytes : List Byte) :
    ∀ h, h < 2 ^ 28 → bytes.foldl qhash_body h < 2 ^ 28 := by
  induction bytes with
  | nil => intro h hh; exact hh
  | cons b rest ih =>
    intro h _
    exact ih _ (qhash_body_lt h b)

theorem qhash_lt (bytes : List Byte) : qhash bytes < 2 ^ 28 := by
  rw [qhash_eq_foldl]
  exact foldl_qhash_body_lt bytes 0 (by norm_num)

/-- The register after `i` rounds of the loop is the hash of the first `i`
bytes. -/
theorem qhash_loop_take (bytes : List Byte) (i : Nat) :
    qhash_loop bytes i (qhash (bytes.take i)) = qhash bytes := by
  rw [qhash_loop_eq_foldl bytes (bytes.length - i) i _ rfl, qhash_eq_foldl, qhash_eq_foldl,
    ← List.foldl_append, List.take_append_drop]

/-- C13: the 32-bit wrap-around never changes the result of `qhash`. For
every byte sequence the hash computed in the 32-bit register equals the same
recurrence over unbounded naturals; the register after any number of rounds,
which is the hash of the bytes read so far, and the final hash are below
`2^28`; and both shard components are below 256. The wrap does happen: after
seven bytes `0x0f` the register holds `0x0fffffff`, and the next
`(h << 4) + 0xff` reaches `2^32`. -/
theorem qhash_wrap_is_harmless (bytes : List Byte) :
    qhash bytes = unbounded_hash bytes
      ∧ (∀ i, qhash_loop bytes i (qhash (bytes.take i)) = qhash bytes
          ∧ qhash (bytes.take i) < 2 ^ 28)
      ∧ qhash bytes < 2 ^ 28
      ∧ dir1 (qhash bytes) < 256 ∧ dir2 (qhash bytes) < 256
      ∧ (qhash [0x0f, 0x0f, 0x0f, 0x0f, 0x0f, 0x0f, 0x0f] = 0x0fffffff
          ∧ 2 ^ 32 ≤ (0x0fffffff <<< 4) + 0xff
          ∧ qhash [0x0f, 0x0f, 0x0f, 0x0f, 0x0f, 0x0f, 0x0f, 0xff]
              = unbounded_hash [0x0f, 0x0f, 0x0f, 0x0f, 0x0f, 0x0f, 0x0f, 0xff]) := by
  have heq : ∀ bs : List Byte, qhash bs = unbounded_hash bs := by
    intro bs
    rw [qhash_eq_foldl, unbounded_hash]
    congr 1
    funext h b
    exact qhash_body_eq_unbounded_round h b
  refine ⟨heq bytes, fun i => ⟨qhash_loop_take bytes i, qhash_lt _⟩, qhash_lt bytes,
    dir1_lt _, dir2_lt _, ?_, by decide, heq _⟩
  rw [qhash_eq_foldl]
  decide

/-! ## The end of a cycle -/

theorem rmWatchCalls_append (t u : List Effect) :
    rmWatchCalls (t ++ u) = rmWatchCalls t + rmWatchCalls u := by
  induction t with
  | nil => simp [rmWatchCalls]
  | cons e t ih =>
    cases e <;> simp [rmWatchCalls, ih, Nat.add_right_comm]

theorem rmWatchCalls_eq_zero (t : List Effect) (ht : Effect.rmWatch ∉ t) :
    rmWatchCalls t = 0 := by
  induction t with
  | nil => rfl
  | cons e t ih =>
    have hne : e ≠ Effect.rmWatch := fun h => ht (by simp [h])
    have ht2 : Effect.rmWatch ∉ t := fun h => ht (by simp [h])
    cases e <;> simp_all [rmWatchCalls]

theorem rmWatch_not_mem_journal_loop (cfg : Config) (w : World) (m : Nat) :
    ∀ n count, 31 - count = m → Effect.rmWatch ∉ journal_loop cfg w n count := by
  induction m with
  | zero =>
    intro n count hc
    have h30 : count + 1 > 30 := by omega
    rw [journal_loop]
    cases w.access n (cfg.KOBO_DB_PATH ++ cstr "-journal") <;> simp [h30]
  | succ m ih =>
    intro n count hc
    have := ih (n + 1) (count + 1) (by omega)
    rw [journal_loop]
    cases w.access n (cfg.KOBO_DB_PATH ++ cstr "-journal") <;>
      by_cases h30 : count + 1 > 30 <;> simp [h30, this]

theorem rmWatch_not_mem_thumbnails_check (cfg : Config) (w : World) :
    Effect.rmWatch ∉ (thumbnails_check cfg w).2 := by
  unfold thumbnails_check
  cases w.image_step with
  | none => simp
  | some image_id =>
    by_cases h3 : thumbnails_num cfg w image_id ≥ 3 <;> simp [h3]

theorem rmWatch_not_mem_is_target_processed (cfg : Config) (w : World)
    (update wait_for_db : Int) :
    Effect.rmWatch ∉ (is_target_processed cfg w update wait_for_db).2 := by
  have hj := fun n => rmWatch_not_mem_journal_loop cfg w 31 n 0 (by omega)
  have ht := rmWatch_not_mem_thumbnails_check cfg w
  unfold is_target_processed
  simp only [List.mem_append, not_or]
  refine ⟨?_, by simp⟩
  split_ifs <;> simp only [List.mem_append, not_or] <;> simp [hj, ht]

theorem on_open_rmWatchCalls (cfg : Config) (s : Watcher) (env : EventEnv) :
    rmWatchCalls (on_open cfg s env).2 = 0 := by
  have hq := rmWatchCalls_eq_zero _ (rmWatch_not_mem_is_target_processed cfg env.open_world 0 0)
  unfold on_open
  by_cases h0 : s.last_spawned_pid = 0
  · by_cases hr : (is_target_processed cfg env.open_world 0 0).1 = 0
    · simp only [h0, hr, if_true]
      exact hq
    · simp only [h0, hr, if_true, if_false]
      exact hq
  · simp [h0, rmWatchCalls]

theorem on_close_rmWatchCalls (cfg : Config) (s : Watcher) (env : EventEnv) :
    rmWatchCalls (on_close cfg s env).2 = 0 := by
  have hq := rmWatchCalls_eq_zero _ (rmWatch_not_mem_is_target_processed cfg env.close_world 0 1)
  rcases on_close_cases cfg s env with ⟨_, _, _, hc⟩ | ⟨_, _, _, hc⟩ | ⟨_, hc⟩ <;> rw [hc]
  · simp [rmWatchCalls_append, hq, rmWatchCalls]
  · exact hq
  · rfl

/-- After one event `destroyed_wd` is 1 when the mask carries `IN_IGNORED`
or `IN_Q_OVERFLOW`, and is unchanged otherwise. -/
theorem handle_event_destroyed_wd (cfg : Config) (s : Watcher) (d : Int) (q : QueuedEvent) :
    (handle_event cfg s d q.1 q.2).destroyed_wd = if endsCycle q then 1 else d := by
  unfold handle_event endsCycle
  by_cases hI : q.1.mask &&& IN_IGNORED ≠ 0 <;> by_cases hQ : q.1.mask &&& IN_Q_OVERFLOW ≠ 0 <;>
    simp [hI, hQ]

/-- One event calls `inotify_rm_watch` once when its mask carries
`IN_Q_OVERFLOW`, and not at all otherwise. -/
theorem handle_event_rmWatchCalls (cfg : Config) (s : Watcher) (d : Int) (q : QueuedEvent) :
    rmWatchCalls (handle_event cfg s d q.1 q.2).effects = if isOverflow q then 1 else 0 := by
  have ho := on_open_rmWatchCalls cfg s q.2
  have hc1 := on_close_rmWatchCalls cfg (on_open cfg s q.2).1 q.2
  have hc2 := on_close_rmWatchCalls cfg s q.2
  unfold handle_event isOverflow
  by_cases hO : q.1.mask &&& IN_OPEN ≠ 0 <;> by_cases hC : q.1.mask &&& IN_CLOSE ≠ 0 <;>
    by_cases hQ : q.1.mask &&& IN_Q_OVERFLOW ≠ 0 <;>
    simp [hO, hC, hQ, rmWatchCalls_append, ho, hc1, hc2, rmWatchCalls]

theorem handle_buffer_destroyed_wd (cfg : Config) (buffer : List QueuedEvent) :
    ∀ (s : Watcher) (d : Int), (d = 0 ∨ d = 1) →
      (handle_buffer cfg s d buffer).destroyed_wd
        = if d = 1 ∨ buffer.any endsCycle = true then 1 else 0 := by
  induction buffer with
  | nil =>
    intro s d hd
    rcases hd with hd | hd <;> simp [handle_buffer, hd]
  | cons q rest ih =>
    intro s d hd
    obtain ⟨ev, env⟩ := q
    have h1 := handle_event_destroyed_wd cfg s d (ev, env)
    simp only [handle_buffer]
    by_cases he : endsCycle (ev, env) = true
    · simp only [he, if_true] at h1
      rw [ih _ _ (Or.inr h1), h1]
      simp [he]
    · have he0 : endsCycle (ev, env) = false := by simpa using he
      rw [he0] at h1
      have h1d : (handle_event cfg s d ev env).destroyed_wd = d := by simpa using h1
      have hd2 : (handle_event cfg s d ev env).destroyed_wd = 0
          ∨ (handle_event cfg s d ev env).destroyed_wd = 1 := by
        rw [h1d]
        exact hd
      rw [ih _ _ hd2, h1d, List.any_cons, he0, Bool.false_or]

theorem handle_buffer_rmWatchCalls (cfg : Config) (buffer : List QueuedEvent) :
    ∀ (s : Watcher) (d : Int),
      rmWatchCalls (handle_buffer cfg s d buffer).effects = (buffer.filter isOverflow).length := by
  induction buffer with
  | nil => intro s d; simp [handle_buffer, rmWatchCalls]
  | cons q rest ih =>
    intro s d
    obtain ⟨ev, env⟩ := q
    have h1 := handle_event_rmWatchCalls cfg s d (ev, env)
    simp only [handle_buffer, rmWatchCalls_append, ih, h1, List.filter_cons]
    by_cases ho : isOverflow (ev, env) = true
    · simp [ho]; omega
    · simp [ho]

/-- The outer loop, entered with `destroyed_wd = 0`: what it returns and how
often it removes the watch. -/
theorem read_loop_spec (cfg : Config) (last : ReadEnd) (buffers : List (List QueuedEvent)) :
    ∀ s : Watcher,
      (read_loop cfg s 0 buffers last).ret
          = (if buffers.any (fun buffer => buffer.any endsCycle) = true then some 1
              else if last = ReadEnd.failure then none else some 0)
        ∧ rmWatchCalls (read_loop cfg s 0 buffers last).effects
          = ((eventsRead buffers).filter isOverflow).length := by
  induction buffers with
  | nil =>
    intro s
    cases last <;> simp [read_loop, rmWatchCalls, eventsRead]
  | cons buffer more ih =>
    intro s
    have hd := handle_buffer_destroyed_wd cfg buffer s 0 (Or.inl rfl)
    have hr := handle_buffer_rmWatchCalls cfg buffer s 0
    simp only [read_loop, eventsRead]
    by_cases hb : buffer.any endsCycle = true
    · have hd1 : (handle_buffer cfg s 0 buffer).destroyed_wd = 1 := by simpa [hb] using hd
      simp [hd1, hb, hr]
    · have hd0 : (handle_buffer cfg s 0 buffer).destroyed_wd = 0 := by simpa [hb] using hd
      have h := ih (handle_buffer cfg s 0 buffer).watcher
      simp only [hd0, ne_eq, not_true_eq_false, if_false, hb, List.any_cons, Bool.false_or,
        List.filter_append, List.length_append, rmWatchCalls_append, hr, h.1, h.2]
      simp

theorem endsCycle_iff (q : QueuedEvent) :
    endsCycle q = true ↔ (q.1.mask &&& IN_IGNORED ≠ 0 ∨ q.1.mask &&& IN_Q_OVERFLOW ≠ 0) := by
  simp [endsCycle]

theorem eventsRead_any (buffers : List (List QueuedEvent)) :
    (eventsRead buffers).any endsCycle = buffers.any (fun buffer => buffer.any endsCycle) := by
  induction buffers with
  | nil => rfl
  | cons buffer more ih =>
    by_cases hb : buffer.any endsCycle = true
    · simp [eventsRead, hb]
    · have hb0 : buffer.any endsCycle = false := by simpa using hb
      have he : eventsRead (buffer :: more) = buffer ++ eventsRead more := by
        simp [eventsRead, hb0]
      rw [he, List.any_append, List.any_cons, hb0, ih, Bool.false_or]

theorem rmWatch_mem_of_calls (t : List Effect) (ht : 0 < rmWatchCalls t) :
    Effect.rmWatch ∈ t := by
  by_contra hn
  have := rmWatchCalls_eq_zero t hn
  omega

/-- An event whose mask is `IN_UNMOUNT` alone changes nothing. -/
theorem handle_event_unmount (cfg : Config) (s : Watcher) (d : Int) (len : Nat) (env : EventEnv) :
    (handle_event cfg s d { mask := IN_UNMOUNT, len := len } env).watcher = s
      ∧ (handle_event cfg s d { mask := IN_UNMOUNT, len := len } env).destroyed_wd = d
      ∧ (handle_event cfg s d { mask := IN_UNMOUNT, len := len } env).effects = [] := by
  have hO : IN_UNMOUNT &&& IN_OPEN = 0 := by decide
  have hC : IN_UNMOUNT &&& IN_CLOSE = 0 := by decide
  have hI : IN_UNMOUNT &&& IN_IGNORED = 0 := by decide
  have hQ : IN_UNMOUNT &&& IN_Q_OVERFLOW = 0 := by decide
  simp [handle_event, hO, hC, hI, hQ]

/-- C12: `handle_events` reports the cycle as ended (returns a non-zero
value, which is 1) if and only if some event it read carries `IN_IGNORED` or
`IN_Q_OVERFLOW`; that is the case as soon as some buffer holds such an event.
Otherwise it returns 0, unless the last `read` fails, which ends the process.
It calls `inotify_rm_watch` once per queue-overflow event it read, and a
queue-overflow event read both removes the watch and ends the cycle. An
event whose mask is `IN_UNMOUNT` alone changes neither `destroyed_wd`, nor
the pending flag, nor `last_spawned_pid`, and does nothing; a call that reads
just that event returns 0. -/
theorem handle_events_ends_cycle_iff (cfg : Config) (s : Watcher)
    (buffers : List (List QueuedEvent)) (last : ReadEnd) :
    ((∃ r, (handle_events cfg s buffers last).ret = some r ∧ r ≠ 0) ↔
        ∃ q ∈ eventsRead buffers,
          q.1.mask &&& IN_IGNORED ≠ 0 ∨ q.1.mask &&& IN_Q_OVERFLOW ≠ 0)
      ∧ ((handle_events cfg s buffers last).ret = some 1 ↔
        ∃ buffer ∈ buffers, ∃ q ∈ buffer,
          q.1.mask &&& IN_IGNORED ≠ 0 ∨ q.1.mask &&& IN_Q_OVERFLOW ≠ 0)
      ∧ ((handle_events cfg s buffers last).ret = some 0 ↔
        (¬ ∃ buffer ∈ buffers, ∃ q ∈ buffer,
            q.1.mask &&& IN_IGNORED ≠ 0 ∨ q.1.mask &&& IN_Q_OVERFLOW ≠ 0)
          ∧ last ≠ ReadEnd.failure)
      ∧ rmWatchCalls (handle_events cfg s buffers last).effects
          = ((eventsRead buffers).filter isOverflow).length
      ∧ (∀ q ∈ eventsRead buffers, q.1.mask &&& IN_Q_OVERFLOW ≠ 0 →
          Effect.rmWatch ∈ (handle_events cfg s buffers last).effects
            ∧ (handle_events cfg s buffers last).ret = some 1)
      ∧ (∀ (d : Int) (len : Nat) (env : EventEnv),
          (handle_event cfg s d { mask := IN_UNMOUNT, len := len } env).watcher = s
            ∧ (handle_event cfg s d { mask := IN_UNMOUNT, len := len } env).destroyed_wd = d
            ∧ (handle_event cfg s d { mask := IN_UNMOUNT, len := len } env).effects = [])
      ∧ (∀ (len : Nat) (env : EventEnv), last ≠ ReadEnd.failure →
          (handle_events cfg s [[({ mask := IN_UNMOUNT, len := len }, env)]] last).ret = some 0
            ∧ (handle_events cfg s [[({ mask := IN_UNMOUNT, len := len }, env)]] last).watcher
              = s
            ∧ (handle_events cfg s [[({ mask := IN_UNMOUNT, len := len }, env)]] last).effects
              = []) := by
  obtain ⟨hret, hrm⟩ := read_loop_spec cfg last buffers s
  have hany : (buffers.any (fun buffer => buffer.any endsCycle) = true) ↔
      ∃ buffer ∈ buffers, ∃ q ∈ buffer,
        q.1.mask &&& IN_IGNORED ≠ 0 ∨ q.1.mask &&& IN_Q_OVERFLOW ≠ 0 := by
    simp only [List.any_eq_true, endsCycle_iff]
  have hread : (∃ q ∈ eventsRead buffers,
        q.1.mask &&& IN_IGNORED ≠ 0 ∨ q.1.mask &&& IN_Q_OVERFLOW ≠ 0) ↔
      (buffers.any (fun buffer => buffer.any endsCycle) = true) := by
    rw [← eventsRead_any]
    simp only [List.any_eq_true, endsCycle_iff]
  have hone : (handle_events cfg s buffers last).ret = some 1 ↔
      (buffers.any (fun buffer => buffer.any endsCycle) = true) := by
    unfold handle_events
    rw [hret]
    by_cases hb : buffers.any (fun buffer => buffer.any endsCycle) = true
    · simp [hb]
    · cases last <;> simp [hb]
  refine ⟨?_, ?_, ?_, ?_, ?_, ?_, ?_⟩
  · rw [hread]
    unfold handle_events
    rw [hret]
    by_cases hb : buffers.any (fun buffer => buffer.any endsCycle) = true
    · simp [hb]
    · cases last <;> simp [hb]
  · rw [hone, hany]
  · rw [← hany]
    unfold handle_events
    rw [hret]
    by_cases hb : buffers.any (fun buffer => buffer.any endsCycle) = true
    · simp [hb]
    · cases last <;> simp [hb]
  · exact hrm
  · intro q hq hover
    have hpos : 0 < ((eventsRead buffers).filter isOverflow).length :=
      List.length_pos_of_mem (List.mem_filter.mpr ⟨hq, by simp [isOverflow, hover]⟩)
    refine ⟨rmWatch_mem_of_calls _ (by unfold handle_events; omega), ?_⟩
    rw [hone, ← hread]
    exact ⟨q, hq, Or.inr hover⟩
  · intro d len env
    exact handle_event_unmount cfg s d len env
  · intro len env hlast
    have hu := handle_event_unmount cfg s 0 len env
    cases last <;> simp [handle_events, read_loop, handle_buffer, hu] at hlast ⊢

/-! ## The oracle and the thumbnails the specification names -/

theorem qhash_abc123 : qhash (cstr "abc123") = 0x6786453 := by
  rw [qhash_eq_foldl]
  decide

theorem wrapped_calls_no_update (cfg : Config) (w : World) :
    wrapped_calls cfg w 0 = if w.exists_step = some 1 then 5 else 3 := by
  unfold wrapped_calls
  rcases row_check_cases w with h | h
  · have he := (row_check_eq_one_iff w).mp h
    simp [h, he]
  · have he : ¬ w.exists_step = some 1 := fun he => by
      rw [(row_check_eq_one_iff w).mpr he] at h
      exact absurd h (by decide)
    simp [h, he]

theorem is_target_processed_or_exit_eq (cfg : Config) (w : World) (rc : Nat → Int)
    (update wait_for_db : Int) :
    is_target_processed_or_exit cfg w rc update wait_for_db
      = if ∀ k, k < wrapped_calls cfg w update → rc k = SQLITE_OK then
          some (is_target_processed cfg w update wait_for_db)
        else none := by
  unfold is_target_processed_or_exit
  have h : ((List.range (wrapped_calls cfg w update)).all
        (fun k => decide (rc k = SQLITE_OK)) = true)
      ↔ ∀ k, k < wrapped_calls cfg w update → rc k = SQLITE_OK := by
    simp [List.all_eq_true]
  by_cases hall : ∀ k, k < wrapped_calls cfg w update → rc k = SQLITE_OK
  · rw [if_pos (h.mpr hall), if_pos hall]
  · rw [if_neg (fun hc => hall (h.mp hc)), if_neg hall]

/-- The probes of the code are probes of the files the specification names,
for a fetched ImageID that is a text without NUL byte whose paths fit. -/
theorem probes_iff_named (cfg : Config) (w : World)
    (himage : ∀ image_id, w.image_step = some image_id →
      ∃ bytes, image_id = some bytes ∧ (0 : Byte) ∉ bytes
        ∧ (thumbnail_template cfg bytes (cstr " - N3_LIBRARY_FULL.parsed")).length < PATH_MAX) :
    (∃ image_id, w.image_step = some image_id
        ∧ w.access 0 (ss_path cfg image_id) = true ∧ w.access 1 (tile_path cfg image_id) = true
        ∧ w.access 2 (thumb_path cfg image_id) = true)
      ↔ ∃ bytes, w.image_step = some (some bytes)
        ∧ w.access 0 (thumbnail_template cfg bytes (cstr " - N3_FULL.parsed")) = true
        ∧ w.access 1 (thumbnail_template cfg bytes (cstr " - N3_LIBRARY_FULL.parsed")) = true
        ∧ w.access 2 (thumbnail_template cfg bytes (cstr " - N3_LIBRARY_GRID.parsed")) = true := by
  constructor
  · rintro ⟨image_id, hstep, h0, h1, h2⟩
    obtain ⟨bytes, hb, hnul, hfit⟩ := himage image_id hstep
    subst hb
    obtain ⟨e0, e1, e2⟩ := thumbnail_paths_eq_template cfg bytes hnul hfit
    exact ⟨bytes, hstep, e0 ▸ h0, e1 ▸ h1, e2 ▸ h2⟩
  · rintro ⟨bytes, hstep, h0, h1, h2⟩
    obtain ⟨bytes2, hb, hnul, hfit⟩ := himage (some bytes) hstep
    have hbb : bytes = bytes2 := Option.some.inj hb
    subst hbb
    obtain ⟨e0, e1, e2⟩ := thumbnail_paths_eq_template cfg bytes hnul hfit
    exact ⟨some bytes, hstep, e0.symm ▸ h0, e1.symm ▸ h1, e2.symm ▸ h2⟩

/-- C3 (as claimed, refuted): three states in which the content row exists,
the ImageID row is fetched and `is_target_processed` returns true although
the thumbnail named after the ImageID does not exist, and one in which it
returns nothing. In the first the ImageID is the text `ab\0c`: the code
hashes its four bytes and probes files named after `ab`. In the second the
ImageID is an SQL NULL: the code probes files named after `(null)`. In the
third the ImageID has 4060 bytes: the code probes paths cut at `PATH_MAX - 1`
bytes. In the fourth the row and the three thumbnails exist and the driver
calls fail: the process ends. -/
theorem processed_without_the_named_thumbnails :
    (is_target_processed kobo_cfg nul_image_world 0 0).1 = 1
      ∧ (∀ n, nul_image_world.access n
          (thumbnail_template kobo_cfg [0x61, 0x62, 0x00, 0x63] (cstr " - N3_FULL.parsed"))
            = false)
      ∧ (is_target_processed kobo_cfg null_image_world 0 0).1 = 1
      ∧ (∀ n, null_image_world.access n
          (thumbnail_template kobo_cfg [] (cstr " - N3_FULL.parsed")) = false)
      ∧ (is_target_processed kobo_cfg long_image_world 0 0).1 = 1
      ∧ (∀ n, long_image_world.access n
          (thumbnail_template kobo_cfg (List.replicate 4060 0x61) (cstr " - N3_FULL.parsed"))
            = false)
      ∧ is_target_processed_or_exit kobo_cfg ready_world driver_error 0 0 = none := by
  have hs1 : ss_path kobo_cfg (some [0x61, 0x62, 0x00, 0x63])
      = cstr "/mnt/onboard/.kobo-images/99/114/ab - N3_FULL.parsed" := by
    simp only [ss_path, images_path, column_bytes, fmt_s_ptr, qhash_eq_foldl]
    decide
  have ht1 : tile_path kobo_cfg (some [0x61, 0x62, 0x00, 0x63])
      = cstr "/mnt/onboard/.kobo-images/99/114/ab - N3_LIBRARY_FULL.parsed" := by
    simp only [tile_path, images_path, column_bytes, fmt_s_ptr, qhash_eq_foldl]
    decide
  have hg1 : thumb_path kobo_cfg (some [0x61, 0x62, 0x00, 0x63])
      = cstr "/mnt/onboard/.kobo-images/99/114/ab - N3_LIBRARY_GRID.parsed" := by
    simp only [thumb_path, images_path, column_bytes, fmt_s_ptr, qhash_eq_foldl]
    decide
  have hs2 : ss_path kobo_cfg none
      = cstr "/mnt/onboard/.kobo-images/0/0/(null) - N3_FULL.parsed" := by
    simp only [ss_path, images_path, column_bytes, fmt_s_ptr, qhash_eq_foldl]
    decide
  have ht2 : tile_path kobo_cfg none
      = cstr "/mnt/onboard/.kobo-images/0/0/(null) - N3_LIBRARY_FULL.parsed" := by
    simp only [tile_path, images_path, column_bytes, fmt_s_ptr, qhash_eq_foldl]
    decide
  have hg2 : thumb_path kobo_cfg none
      = cstr "/mnt/onboard/.kobo-images/0/0/(null) - N3_LIBRARY_GRID.parsed" := by
    simp only [thumb_path, images_path, column_bytes, fmt_s_ptr, qhash_eq_foldl]
    decide
  have hm1 : thumbnail_template kobo_cfg [0x61, 0x62, 0x00, 0x63] (cstr " - N3_FULL.parsed")
      = cstr "/mnt/onboard/.kobo-images/99/114/ab\x00c - N3_FULL.parsed" := by
    simp only [thumbnail_template, qhash_eq_foldl]
    decide
  have hm2 : thumbnail_template kobo_cfg [] (cstr " - N3_FULL.parsed")
      = cstr "/mnt/onboard/.kobo-images/0/0/ - N3_FULL.parsed" := by
    simp only [thumbnail_template, qhash_eq_foldl]
    decide
  have hcut : ∀ formatted : List Byte, (snprintf PATH_MAX formatted).length < PATH_MAX := by
    intro formatted
    have := List.length_take_le (PATH_MAX - 1) formatted
    unfold snprintf
    have hp : PATH_MAX = 4096 := rfl
    omega
  refine ⟨?_, ?_, ?_, ?_, ?_, ?_, ?_⟩
  · refine ((is_target_processed_iff_probes kobo_cfg nul_image_world 0).1).mpr
      ⟨rfl, some [0x61, 0x62, 0x00, 0x63], rfl, ?_, ?_, ?_⟩
    · rw [hs1]; decide
    · rw [ht1]; decide
    · rw [hg1]; decide
  · intro n
    rw [hm1]
    show decide (cstr "/mnt/onboard/.kobo-images/99/114/ab\x00c - N3_FULL.parsed"
      ∈ nul_image_files) = false
    decide
  · refine ((is_target_processed_iff_probes kobo_cfg null_image_world 0).1).mpr
      ⟨rfl, none, rfl, ?_, ?_, ?_⟩
    · rw [hs2]; decide
    · rw [ht2]; decide
    · rw [hg2]; decide
  · intro n
    rw [hm2]
    show decide (cstr "/mnt/onboard/.kobo-images/0/0/ - N3_FULL.parsed"
      ∈ null_image_files) = false
    decide
  · refine ((is_target_processed_iff_probes kobo_cfg long_image_world 0).1).mpr
      ⟨rfl, some (List.replicate 4060 0x61), rfl, ?_, ?_, ?_⟩
    · exact decide_eq_true (hcut _)
    · exact decide_eq_true (hcut _)
    · exact decide_eq_true (hcut _)
  · intro n
    have hlen : ¬ (thumbnail_template kobo_cfg (List.replicate 4060 0x61)
        (cstr " - N3_FULL.parsed")).length < PATH_MAX := by
      have hp : PATH_MAX = 4096 := rfl
      have hl3 : (cstr " - N3_FULL.parsed").length = 17 := by decide
      have hl4 : (cstr "/.kobo-images/").length = 14 := by decide
      have hl5 : (fmt_s kobo_cfg.KFMON_TARGET_MOUNTPOINT).length = 12 := by decide
      simp only [thumbnail_template, List.length_append, List.length_replicate]
      omega
    exact decide_eq_false hlen
  · rw [is_target_processed_or_exit_eq, wrapped_calls_no_update]
    have hno : ¬ ∀ k, k < (if ready_world.exists_step = some 1 then 5 else 3) →
        driver_error k = SQLITE_OK := by
      intro h
      have h0 := h 0 (by split_ifs <;> omega)
      exact absurd h0 (by decide)
    rw [if_neg hno]

/-- C3 (amended): take a state in which the ImageID fetched for the content
row, if the row exists and the ImageID row is fetched, is a text (not an SQL
NULL) without NUL byte whose longest thumbnail path fits `PATH_MAX`. Called
without metadata update, `is_target_processed` ends the process when one of
the driver calls it makes fails (3 calls without the row, 5 with it).
Otherwise it returns true (1) exactly when the content row exists with
content type '6', the ImageID row is fetched and the three files
`<mountpoint>/.kobo-images/<dir1>/<dir2>/<ImageID> - N3_FULL.parsed`,
`... - N3_LIBRARY_FULL.parsed` and `... - N3_LIBRARY_GRID.parsed` exist, and
false (0) in every other case: row absent, ImageID row not fetched, or only
0, 1 or 2 of the three files present. -/
theorem is_target_processed_iff_named_thumbnails (cfg : Config) (w : World) (rc : Nat → Int)
    (wait_for_db : Int)
    (himage : w.exists_step = some 1 → ∀ image_id, w.image_step = some image_id →
      ∃ bytes, image_id = some bytes ∧ (0 : Byte) ∉ bytes
        ∧ (thumbnail_template cfg bytes (cstr " - N3_LIBRARY_FULL.parsed")).length < PATH_MAX) :
    wrapped_calls cfg w 0 = (if w.exists_step = some 1 then 5 else 3)
      ∧ (is_target_processed_or_exit cfg w rc 0 wait_for_db = none ↔
          ∃ k, k < wrapped_calls cfg w 0 ∧ rc k ≠ SQLITE_OK)
      ∧ ((∃ t, is_target_processed_or_exit cfg w rc 0 wait_for_db = some (1, t)) ↔
          ((∀ k, k < wrapped_calls cfg w 0 → rc k = SQLITE_OK)
            ∧ w.exists_step = some 1
            ∧ ∃ bytes, w.image_step = some (some bytes)
              ∧ w.access 0 (thumbnail_template cfg bytes (cstr " - N3_FULL.parsed")) = true
              ∧ w.access 1 (thumbnail_template cfg bytes (cstr " - N3_LIBRARY_FULL.parsed"))
                  = true
              ∧ w.access 2 (thumbnail_template cfg bytes (cstr " - N3_LIBRARY_GRID.parsed"))
                  = true))
      ∧ ((∃ t, is_target_processed_or_exit cfg w rc 0 wait_for_db = some (0, t)) ↔
          ((∀ k, k < wrapped_calls cfg w 0 → rc k = SQLITE_OK)
            ∧ ¬ (w.exists_step = some 1
              ∧ ∃ bytes, w.image_step = some (some bytes)
                ∧ w.access 0 (thumbnail_template cfg bytes (cstr " - N3_FULL.parsed")) = true
                ∧ w.access 1 (thumbnail_template cfg bytes (cstr " - N3_LIBRARY_FULL.parsed"))
                    = true
                ∧ w.access 2 (thumbnail_template cfg bytes (cstr " - N3_LIBRARY_GRID.parsed"))
                    = true))) := by
  obtain ⟨h1, h0⟩ := is_target_processed_iff_probes cfg w wait_for_db
  have hnamed : w.exists_step = some 1 →
      ((∃ image_id, w.image_step = some image_id
          ∧ w.access 0 (ss_path cfg image_id) = true ∧ w.access 1 (tile_path cfg image_id) = true
          ∧ w.access 2 (thumb_path cfg image_id) = true)
        ↔ ∃ bytes, w.image_step = some (some bytes)
          ∧ w.access 0 (thumbnail_template cfg bytes (cstr " - N3_FULL.parsed")) = true
          ∧ w.access 1 (thumbnail_template cfg bytes (cstr " - N3_LIBRARY_FULL.parsed")) = true
          ∧ w.access 2 (thumbnail_template cfg bytes (cstr " - N3_LIBRARY_GRID.parsed"))
              = true) :=
    fun he => probes_iff_named cfg w (himage he)
  have hP : (w.exists_step = some 1 ∧ ∃ image_id, w.image_step = some image_id
        ∧ w.access 0 (ss_path cfg image_id) = true ∧ w.access 1 (tile_path cfg image_id) = true
        ∧ w.access 2 (thumb_path cfg image_id) = true)
      ↔ (w.exists_step = some 1 ∧ ∃ bytes, w.image_step = some (some bytes)
        ∧ w.access 0 (thumbnail_template cfg bytes (cstr " - N3_FULL.parsed")) = true
        ∧ w.access 1 (thumbnail_template cfg bytes (cstr " - N3_LIBRARY_FULL.parsed")) = true
        ∧ w.access 2 (thumbnail_template cfg bytes (cstr " - N3_LIBRARY_GRID.parsed"))
            = true) :=
    ⟨fun ⟨he, h⟩ => ⟨he, (hnamed he).mp h⟩, fun ⟨he, h⟩ => ⟨he, (hnamed he).mpr h⟩⟩
  rw [hP] at h1 h0
  rw [is_target_processed_or_exit_eq]
  refine ⟨wrapped_calls_no_update cfg w, ?_, ?_, ?_⟩
  · by_cases hall : ∀ k, k < wrapped_calls cfg w 0 → rc k = SQLITE_OK
    · rw [if_pos hall]
      constructor
      · intro h
        exact absurd h (by simp)
      · rintro ⟨k, hk, hne⟩
        exact absurd (hall k hk) hne
    · rw [if_neg hall]
      constructor
      · intro _
        by_contra hno
        exact hall (fun k hk => by
          by_contra hne
          exact hno ⟨k, hk, hne⟩)
      · intro _
        rfl
  · by_cases hall : ∀ k, k < wrapped_calls cfg w 0 → rc k = SQLITE_OK
    · rw [if_pos hall]
      constructor
      · rintro ⟨t, ht⟩
        have hv : (is_target_processed cfg w 0 wait_for_db).1 = 1 := by
          rw [Option.some.inj ht]
        exact ⟨hall, h1.mp hv⟩
      · rintro ⟨_, hc⟩
        exact ⟨(is_target_processed cfg w 0 wait_for_db).2,
          congrArg some (Prod.ext (h1.mpr hc) rfl)⟩
    · rw [if_neg hall]
      constructor
      · rintro ⟨t, ht⟩
        exact absurd ht (by simp)
      · rintro ⟨hok, _⟩
        exact absurd hok hall
  · by_cases hall : ∀ k, k < wrapped_calls cfg w 0 → rc k = SQLITE_OK
    · rw [if_pos hall]
      constructor
      · rintro ⟨t, ht⟩
        have hv : (is_target_processed cfg w 0 wait_for_db).1 = 0 := by
          rw [Option.some.inj ht]
        exact ⟨hall, h0.mp hv⟩
      · rintro ⟨_, hc⟩
        exact ⟨(is_target_processed cfg w 0 wait_for_db).2,
          congrArg some (Prod.ext (h0.mpr hc) rfl)⟩
    · rw [if_neg hall]
      constructor
      · rintro ⟨t, ht⟩
        exact absurd ht (by simp)
      · rintro ⟨hok, _⟩
        exact absurd hok hall

/-- C3 (amended, instance): on the sample device, with the ImageID "abc123",
the three named thumbnails present and every driver call succeeding, the
oracle returns true. -/
theorem is_target_processed_iff_named_thumbnails_witness :
    (ready_world.exists_step = some 1 → ∀ image_id, ready_world.image_step = some image_id →
        ∃ bytes, image_id = some bytes ∧ (0 : Byte) ∉ bytes
          ∧ (thumbnail_template kobo_cfg bytes (cstr " - N3_LIBRARY_FULL.parsed")).length
              < PATH_MAX)
      ∧ ∃ t, is_target_processed_or_exit kobo_cfg ready_world driver_ok 0 1 = some (1, t) :=
  have himage : ready_world.exists_step = some 1 →
      ∀ image_id, ready_world.image_step = some image_id →
        ∃ bytes, image_id = some bytes ∧ (0 : Byte) ∉ bytes
          ∧ (thumbnail_template kobo_cfg bytes (cstr " - N3_LIBRARY_FULL.parsed")).length
              < PATH_MAX := by
    intro _ image_id hstep
    refine ⟨cstr "abc123", (Option.some.inj hstep).symm, by decide, ?_⟩
    rw [thumbnail_template, qhash_abc123]
    decide
  ⟨himage,
    (is_target_processed_iff_named_thumbnails kobo_cfg ready_world driver_ok 1 himage).2.2.1.mpr
      ⟨fun _ _ => rfl, rfl, cstr "abc123", rfl, rfl, rfl, rfl⟩⟩

end KFMon
